import Mathlib

/-!
Shallow embedding of the `k8s-observability-agent` repository
(`src/k8s_observability_agent/`), together with theorems settling the
claims of its natural-language specification.

Python `float` confidence scores are modelled as natural numbers counting
hundredths (weight 0.70 becomes 70); every value the claims mention is an
exact multiple of 1/100, so the model is exact.  Python `dict`s are
modelled as insertion-ordered association lists, matching CPython's
guaranteed ordering semantics.  Compiled regular expressions over container
images are modelled by expanding each (finite) regex into the equivalent
list of anchored literal alternatives.  Python exceptions are modelled with
`Except String`.
-/

namespace K8sObs

/-! ## Generic string helpers -/

/-- `List.foldl` with the accumulator's start value first (it mirrors a
Python loop whose accumulator is initialised before the loop). -/
def foldlInit {α β : Type} (l : List α) (init : β) (f : β → α → β) : β :=
  List.foldl f init l

/-- `List.foldr` with the accumulator's start value first. -/
def foldrInit {α β : Type} (l : List α) (init : β) (f : α → β → β) : β :=
  List.foldr f init l

/-- `List.foldlM` over `Except String`, start value first. -/
def foldlMInit {α β : Type} (l : List α) (init : β)
    (f : β → α → Except String β) : Except String β :=
  List.foldlM f init l

/-- Lowercase a string character-wise (ASCII, as in Python `.lower()` for
the ASCII identifiers used by the source). -/
def lowerStr (s : String) : String :=
  String.mk (s.toList.map Char.toLower)

/-- `replaceChar c d s` replaces every occurrence of character `c` by `d`. -/
def replaceChar (c d : Char) (s : String) : String :=
  String.mk (s.toList.map fun x => if x = c then d else x)

/-- Python `"x" in s` / substring test, over character lists. -/
def isSubListAt : List Char → List Char → Bool
  | [], _ => true
  | _ :: _, [] => false
  | p, l@(_ :: t) => (p.isPrefixOf l) || isSubListAt p t

/-- Substring test on strings. -/
def containsSub (hay needle : String) : Bool :=
  isSubListAt needle.toList hay.toList

/-- Python `s.startswith(p)`, via character lists (kernel-reducible). -/
def strStartsWith (p s : String) : Bool :=
  p.toList.isPrefixOf s.toList

/-- Lexicographic comparison on character lists (Python string `<=`,
code-point order). -/
def charListLe : List Char → List Char → Bool
  | [], _ => true
  | _ :: _, [] => false
  | a :: as, b :: bs => if a < b then true else if b < a then false else charListLe as bs

/-- Python string `<=`. -/
def strLe (a b : String) : Bool :=
  charListLe a.toList b.toList

/-- Python `sorted` on strings (stable; insertion sort). -/
def pySortStrings (l : List String) : List String :=
  l.insertionSort fun a b => strLe a b = true

/-- Python `sorted` keyed by a string projection (used for
`sorted(dict.items())` over string-keyed dicts). -/
def pySortByKey {α : Type} (key : α → String) (l : List α) : List α :=
  l.insertionSort fun a b => strLe (key a) (key b) = true

/-- All characters are ASCII digits. -/
def allDigits (s : String) : Bool :=
  s.toList.all fun c => c.isDigit

/-- Association-list lookup (Python `dict.get(k, d)` on an
insertion-ordered dict). -/
def alistGetD {α : Type} (l : List (String × α)) (k : String) (d : α) : α :=
  match l.find? (fun p => p.1 = k) with
  | some p => p.2
  | none => d

/-- Python `dict.get(k)` returning an option. -/
def alistGet? {α : Type} (l : List (String × α)) (k : String) : Option α :=
  (l.find? (fun p => p.1 = k)).map Prod.snd

/-- Membership of a key in a dict. -/
def alistHasKey {α : Type} (l : List (String × α)) (k : String) : Bool :=
  (l.find? (fun p => p.1 = k)).isSome

/-- Python `"sep".join(parts)`. -/
def joinSep (sep : String) : List String → String
  | [] => ""
  | [x] => x
  | x :: xs => x ++ sep ++ joinSep sep xs

/-- `'=' * n` etc. -/
def repeatChar (c : Char) (n : Nat) : String :=
  String.mk (List.replicate n c)

/-! ## Image-regex model

Each compiled pattern from `classifier.py` is finite: an optional
`(^|/)` anchor, a literal alternation, and an optional trailing
separator class.  `Pat` records one alternative: the literal, the set of
admissible following characters (`[]` means no following character is
required) and whether the string-start anchor is allowed (`false` models
patterns such as `/pg[_-]` that demand a literal slash). -/

structure Pat where
  lit : List Char
  seps : List Char
  startOk : Bool := true
  deriving Repr, DecidableEq

/-- Does pattern `p` match at the head of `cs`? -/
def patAt (p : Pat) (cs : List Char) : Bool :=
  p.lit.isPrefixOf cs &&
    (p.seps.isEmpty ||
      match (cs.drop p.lit.length).head? with
      | some c => p.seps.contains c
      | none => false)

/-- Unanchored scan for an alternative list: a position qualifies if it is
the string start (for `startOk` alternatives) or follows a `/`. -/
def anchoredAux (pats : List Pat) : List Char → Bool → Bool → Bool
  | [], _, _ => false
  | c :: rest, isStart, afterSlash =>
    (pats.any fun p => ((isStart && p.startOk) || afterSlash) && patAt p (c :: rest)) ||
      anchoredAux pats rest false (c = '/')

/-- `re.search` of an anchored alternation against a lowercased string. -/
def anchoredSearch (pats : List Pat) (s : String) : Bool :=
  anchoredAux pats (lowerStr s).toList true false

/-- Plain case-insensitive substring alternation (`EXPORTER_IMAGE_PATTERNS`
entries carry no anchors). -/
def subSearch (lits : List String) (s : String) : Bool :=
  lits.any fun lit => containsSub (lowerStr s) lit

end K8sObs

namespace K8sObs

/-! ## `classifier.py` — observability signals and archetype profiles -/

/-- `classifier.MetricSignal`. -/
structure MetricSignal where
  name : String
  query : String
  description : String
  panel_type : String := "timeseries"
  requires : String := ""
  deriving Repr, DecidableEq

/-- `classifier.AlertSignal`.  Note: the dataclass has *no* `nodata_state`
field; `registry._get_workload_insights` nevertheless reads one (see
`AlertSignal.nodata_state` below). -/
structure AlertSignal where
  name : String
  expr : String
  severity : String := "warning"
  for_duration : String := "5m"
  summary : String := ""
  requires : String := ""
  deriving Repr, DecidableEq

/-- `classifier.ArchetypeProfile`.  It has *no* `grafana_dashboards`
field; see `ArchetypeProfile.grafana_dashboards` below. -/
structure ArchetypeProfile where
  archetype : String
  display_name : String
  description : String
  key : String := ""
  exporter : String := ""
  exporter_port : Nat := 0
  golden_metrics : List MetricSignal := []
  alerts : List AlertSignal := []
  dashboard_tags : List String := []
  health_requirements : List String := []
  recommendations : List String := []
  deriving Repr, DecidableEq

/-- Python attribute access `a.nodata_state` on the `AlertSignal`
dataclass: the attribute does not exist, so the access raises
`AttributeError`. -/
def AlertSignal.nodata_state (_ : AlertSignal) : Except String String :=
  .error "AttributeError: \x27AlertSignal\x27 object has no attribute \x27nodata_state\x27"

/-- Python attribute access `profile.grafana_dashboards` on the
`ArchetypeProfile` dataclass: the attribute does not exist. -/
def ArchetypeProfile.grafana_dashboards (_ : ArchetypeProfile) : Except String (List String) :=
  .error "AttributeError: \x27ArchetypeProfile\x27 object has no attribute \x27grafana_dashboards\x27"

/-- `classifier._registry_key`. -/
def registryKey (p : ArchetypeProfile) : String :=
  if p.key ≠ "" then p.key
  else replaceChar '/' '_' (replaceChar ' ' '_' (lowerStr p.display_name))

/-! ### The archetype catalog (`_PROFILES`), transcribed from the source. -/

def pgProfile : ArchetypeProfile :=
  { archetype := "database"
    display_name := "PostgreSQL"
    description := "Relational database — monitor connections, replication, query performance, and WAL archiving."
    exporter := "postgres_exporter"
    exporter_port := 9187
    golden_metrics := [
      { name := "pg_active_connections"
        query := "pg_stat_activity_count\x7bstate=\"active\"\x7d"
        description := "Active connections (should stay below max_connections)"
        requires := "exporter" },
      { name := "pg_replication_lag_bytes"
        query := "pg_replication_lag_bytes"
        description := "Replication lag in bytes (streaming replicas)"
        requires := "exporter,replicas>1" },
      { name := "pg_transactions_per_sec"
        query := "rate(pg_stat_database_xact_commit[5m]) + rate(pg_stat_database_xact_rollback[5m])"
        description := "Transaction throughput (commits + rollbacks)"
        requires := "exporter" },
      { name := "pg_cache_hit_ratio"
        query := "pg_stat_database_blks_hit / (pg_stat_database_blks_hit + pg_stat_database_blks_read)"
        description := "Buffer cache hit ratio (should be > 0.99)"
        panel_type := "gauge"
        requires := "exporter" },
      { name := "pg_dead_tuples"
        query := "pg_stat_user_tables_n_dead_tup"
        description := "Dead tuples awaiting vacuum"
        requires := "exporter" }]
    alerts := [
      { name := "PostgresTooManyConnections"
        expr := "pg_stat_activity_count > (pg_settings_max_connections * 0.8)"
        severity := "warning"
        for_duration := "5m"
        summary := "PostgreSQL connection count exceeds 80% of max_connections"
        requires := "exporter" },
      { name := "PostgresReplicationLagHigh"
        expr := "pg_replication_lag_bytes > 100 * 1024 * 1024"
        severity := "critical"
        for_duration := "5m"
        summary := "PostgreSQL replication lag exceeds 100 MB"
        requires := "exporter,replicas>1" },
      { name := "PostgresDeadTuplesHigh"
        expr := "pg_stat_user_tables_n_dead_tup > 10000"
        severity := "warning"
        for_duration := "15m"
        summary := "High dead tuple count — autovacuum may be falling behind"
        requires := "exporter" },
      { name := "PostgresCacheHitRatioLow"
        expr := "(pg_stat_database_blks_hit / (pg_stat_database_blks_hit + pg_stat_database_blks_read)) < 0.95"
        severity := "warning"
        for_duration := "10m"
        summary := "Buffer cache hit ratio below 95% — consider increasing shared_buffers"
        requires := "exporter" }]
    dashboard_tags := ["postgresql", "database"]
    health_requirements := [
      "Deploy postgres_exporter sidecar or standalone to expose pg_* metrics",
      "Ensure pg_stat_statements extension is enabled for query-level visibility",
      "Configure WAL archiving for point-in-time recovery monitoring"]
    recommendations := [
      "Use a StatefulSet with PVCs for data durability",
      "Set resource limits — PostgreSQL will use all available memory for shared_buffers",
      "Add a readiness probe on port 5432 (pg_isready)",
      "Monitor pg_stat_statements for slow query detection"] }

def mysqlProfile : ArchetypeProfile :=
  { archetype := "database"
    display_name := "MySQL"
    description := "Relational database — monitor connections, replication, InnoDB buffer pool, and slow queries."
    exporter := "mysqld_exporter"
    exporter_port := 9104
    golden_metrics := [
      { name := "mysql_connections"
        query := "mysql_global_status_threads_connected"
        description := "Current open connections"
        requires := "exporter" },
      { name := "mysql_queries_per_sec"
        query := "rate(mysql_global_status_queries[5m])"
        description := "Query throughput"
        requires := "exporter" },
      { name := "mysql_slow_queries"
        query := "rate(mysql_global_status_slow_queries[5m])"
        description := "Slow query rate"
        requires := "exporter" },
      { name := "mysql_innodb_buffer_pool_hit_ratio"
        query := "1 - (rate(mysql_global_status_innodb_buffer_pool_reads[5m]) / rate(mysql_global_status_innodb_buffer_pool_read_requests[5m]))"
        description := "InnoDB buffer pool hit ratio"
        panel_type := "gauge"
        requires := "exporter" },
      { name := "mysql_replication_lag"
        query := "mysql_slave_status_seconds_behind_master"
        description := "Replication lag in seconds"
        requires := "exporter,replicas>1" }]
    alerts := [
      { name := "MySQLTooManyConnections"
        expr := "mysql_global_status_threads_connected > (mysql_global_variables_max_connections * 0.8)"
        severity := "warning"
        for_duration := "5m"
        summary := "MySQL connection count exceeds 80% of max_connections"
        requires := "exporter" },
      { name := "MySQLReplicationLagHigh"
        expr := "mysql_slave_status_seconds_behind_master > 30"
        severity := "critical"
        for_duration := "5m"
        summary := "MySQL replication lag exceeds 30 seconds"
        requires := "exporter,replicas>1" },
      { name := "MySQLSlowQueryRateHigh"
        expr := "rate(mysql_global_status_slow_queries[5m]) > 0.1"
        severity := "warning"
        for_duration := "10m"
        summary := "Elevated slow query rate"
        requires := "exporter" }]
    dashboard_tags := ["mysql", "database"]
    health_requirements := [
      "Deploy mysqld_exporter sidecar to expose mysql_* metrics",
      "Enable performance_schema for query-level monitoring"]
    recommendations := [
      "Use a StatefulSet with PVCs for data durability",
      "Set innodb_buffer_pool_size to ~70% of available memory",
      "Add a readiness probe using mysqladmin ping"] }

def redisProfile : ArchetypeProfile :=
  { archetype := "cache"
    display_name := "Redis"
    description := "In-memory data store — monitor memory usage, evictions, hit rate, and connected clients."
    exporter := "redis_exporter"
    exporter_port := 9121
    golden_metrics := [
      { name := "redis_memory_used_bytes"
        query := "redis_memory_used_bytes"
        description := "Current memory usage"
        requires := "exporter" },
      { name := "redis_memory_max_bytes"
        query := "redis_memory_max_bytes"
        description := "Configured maxmemory limit"
        requires := "exporter" },
      { name := "redis_hit_rate"
        query := "rate(redis_keyspace_hits_total[5m]) / (rate(redis_keyspace_hits_total[5m]) + rate(redis_keyspace_misses_total[5m]))"
        description := "Cache hit ratio"
        panel_type := "gauge"
        requires := "exporter" },
      { name := "redis_evicted_keys"
        query := "rate(redis_evicted_keys_total[5m])"
        description := "Key eviction rate — nonzero means memory pressure"
        requires := "exporter" },
      { name := "redis_connected_clients"
        query := "redis_connected_clients"
        description := "Current client connections"
        requires := "exporter" },
      { name := "redis_ops_per_sec"
        query := "rate(redis_commands_processed_total[5m])"
        description := "Command throughput"
        requires := "exporter" }]
    alerts := [
      { name := "RedisMemoryNearMax"
        expr := "redis_memory_used_bytes / redis_memory_max_bytes > 0.9"
        severity := "warning"
        for_duration := "5m"
        summary := "Redis memory usage above 90% of maxmemory"
        requires := "exporter" },
      { name := "RedisEvictionsActive"
        expr := "rate(redis_evicted_keys_total[5m]) > 0"
        severity := "warning"
        for_duration := "10m"
        summary := "Redis is actively evicting keys — memory pressure"
        requires := "exporter" },
      { name := "RedisHighLatency"
        expr := "redis_slowlog_length > 10"
        severity := "warning"
        for_duration := "5m"
        summary := "Redis slowlog growing — possible performance degradation"
        requires := "exporter" }]
    dashboard_tags := ["redis", "cache"]
    health_requirements := [
      "Deploy redis_exporter sidecar to expose redis_* metrics",
      "Configure maxmemory and maxmemory-policy to prevent OOM kills"]
    recommendations := [
      "Set maxmemory-policy (allkeys-lru for cache, noeviction for queues)",
      "Monitor keyspace hit ratio — below 90% indicates poor cache utilization",
      "Use a readiness probe via redis-cli ping"] }

def mongoProfile : ArchetypeProfile :=
  { archetype := "database"
    display_name := "MongoDB"
    description := "Document database — monitor connections, oplog, replica set health, and WiredTiger cache."
    exporter := "mongodb_exporter"
    exporter_port := 9216
    golden_metrics := [
      { name := "mongodb_connections_current"
        query := "mongodb_ss_connections\x7bconn_type=\x27current\x27\x7d"
        description := "Current connections", requires := "exporter" },
      { name := "mongodb_opcounters"
        query := "rate(mongodb_ss_opcounters_total[5m])"
        description := "Operation counters (insert/query/update/delete)", requires := "exporter" },
      { name := "mongodb_repl_lag"
        query := "mongodb_mongod_replset_member_optime_date - mongodb_mongod_replset_member_optime_date\x7bstate=\x27PRIMARY\x27\x7d"
        description := "Replication lag", requires := "exporter,replicas>1" },
      { name := "mongodb_wiredtiger_cache"
        query := "mongodb_ss_wt_cache_bytes_currently_in_the_cache"
        description := "WiredTiger cache usage", requires := "exporter" }]
    alerts := [
      { name := "MongoDBReplicationLag"
        expr := "mongodb_mongod_replset_member_replication_lag > 10"
        severity := "critical", for_duration := "5m"
        summary := "MongoDB replica set member lagging behind primary"
        requires := "exporter,replicas>1" },
      { name := "MongoDBConnectionsHigh"
        expr := "mongodb_ss_connections\x7bconn_type=\x27current\x27\x7d > 5000"
        severity := "warning", for_duration := "5m"
        summary := "MongoDB connection count high", requires := "exporter" }]
    dashboard_tags := ["mongodb", "database"]
    health_requirements := ["Deploy mongodb_exporter to expose mongodb_* metrics"]
    recommendations := [
      "Use a StatefulSet for replica set members",
      "Monitor oplog window size for replication health"] }

def esProfile : ArchetypeProfile :=
  { archetype := "search-engine"
    display_name := "Elasticsearch"
    description := "Search and analytics engine — monitor cluster health, JVM heap, indexing rate, and shard allocation."
    exporter := "elasticsearch_exporter"
    exporter_port := 9114
    golden_metrics := [
      { name := "es_cluster_health", query := "elasticsearch_cluster_health_status"
        description := "Cluster health (green/yellow/red)", requires := "exporter" },
      { name := "es_jvm_heap_used"
        query := "elasticsearch_jvm_memory_used_bytes\x7barea=\x27heap\x27\x7d"
        description := "JVM heap usage", requires := "exporter" },
      { name := "es_indexing_rate"
        query := "rate(elasticsearch_indices_indexing_index_total[5m])"
        description := "Document indexing rate", requires := "exporter" },
      { name := "es_search_latency"
        query := "elasticsearch_indices_search_fetch_time_seconds / elasticsearch_indices_search_fetch_total"
        description := "Average search latency", requires := "exporter" },
      { name := "es_unassigned_shards"
        query := "elasticsearch_cluster_health_unassigned_shards"
        description := "Unassigned shard count", requires := "exporter" }]
    alerts := [
      { name := "ElasticsearchClusterRed"
        expr := "elasticsearch_cluster_health_status\x7bcolor=\"red\"\x7d == 1"
        severity := "critical", for_duration := "1m"
        summary := "Elasticsearch cluster health is RED", requires := "exporter" },
      { name := "ElasticsearchClusterYellow"
        expr := "elasticsearch_cluster_health_status\x7bcolor=\"yellow\"\x7d == 1"
        severity := "warning", for_duration := "10m"
        summary := "Elasticsearch cluster health is YELLOW", requires := "exporter" },
      { name := "ElasticsearchJVMHeapHigh"
        expr := "elasticsearch_jvm_memory_used_bytes\x7barea=\x27heap\x27\x7d / elasticsearch_jvm_memory_max_bytes\x7barea=\x27heap\x27\x7d > 0.9"
        severity := "warning", for_duration := "5m"
        summary := "Elasticsearch JVM heap usage above 90%", requires := "exporter" }]
    dashboard_tags := ["elasticsearch", "search"]
    health_requirements := [
      "Ensure /_cluster/health endpoint is accessible",
      "elasticsearch_exporter sidecar needed for prometheus metrics"]
    recommendations := [
      "Set JVM heap to 50% of available memory (max 31 GB)",
      "Monitor unassigned shards — they indicate capacity or config issues"] }

def kafkaProfile : ArchetypeProfile :=
  { archetype := "message-queue"
    display_name := "Kafka"
    description := "Distributed event streaming — monitor consumer lag, under-replicated partitions, and broker throughput."
    exporter := "kafka_exporter / JMX exporter"
    exporter_port := 9308
    golden_metrics := [
      { name := "kafka_consumer_lag", query := "kafka_consumergroup_lag"
        description := "Consumer group lag (messages behind)", requires := "exporter" },
      { name := "kafka_under_replicated_partitions"
        query := "kafka_server_replicamanager_underreplicatedpartitions"
        description := "Under-replicated partitions", requires := "exporter" },
      { name := "kafka_messages_in_per_sec"
        query := "rate(kafka_server_brokertopicmetrics_messagesin_total[5m])"
        description := "Message ingest rate", requires := "exporter" },
      { name := "kafka_isr_shrinks"
        query := "rate(kafka_server_replicamanager_isrshrinks_total[5m])"
        description := "ISR shrink rate — indicates broker instability", requires := "exporter" }]
    alerts := [
      { name := "KafkaConsumerLagHigh", expr := "kafka_consumergroup_lag > 10000"
        severity := "warning", for_duration := "10m"
        summary := "Kafka consumer group lag exceeds 10k messages", requires := "exporter" },
      { name := "KafkaUnderReplicated"
        expr := "kafka_server_replicamanager_underreplicatedpartitions > 0"
        severity := "critical", for_duration := "5m"
        summary := "Kafka has under-replicated partitions — risk of data loss"
        requires := "exporter,replicas>1" },
      { name := "KafkaISRShrinking"
        expr := "rate(kafka_server_replicamanager_isrshrinks_total[5m]) > 0"
        severity := "warning", for_duration := "5m"
        summary := "Kafka ISR is shrinking — broker may be unhealthy"
        requires := "exporter,replicas>1" }]
    dashboard_tags := ["kafka", "messaging"]
    health_requirements := [
      "Deploy kafka_exporter or enable JMX exporter for kafka_* metrics",
      "Monitor ZooKeeper (or KRaft controller) health separately"]
    recommendations := [
      "Set min.insync.replicas >= 2 for durability",
      "Monitor consumer lag per consumer group, not just globally"] }

def rabbitmqProfile : ArchetypeProfile :=
  { archetype := "message-queue"
    display_name := "RabbitMQ"
    description := "Message broker — monitor queue depth, consumer utilization, and node memory."
    exporter := "rabbitmq_prometheus (built-in)"
    exporter_port := 15692
    golden_metrics := [
      { name := "rabbitmq_queue_messages", query := "rabbitmq_queue_messages"
        description := "Messages ready + unacknowledged per queue" },
      { name := "rabbitmq_queue_consumers", query := "rabbitmq_queue_consumers"
        description := "Consumer count per queue" },
      { name := "rabbitmq_node_mem_used", query := "rabbitmq_process_resident_memory_bytes"
        description := "Node resident memory" },
      { name := "rabbitmq_publish_rate"
        query := "rate(rabbitmq_channel_messages_published_total[5m])"
        description := "Message publish rate" }]
    alerts := [
      { name := "RabbitMQQueueBacklog", expr := "rabbitmq_queue_messages > 10000"
        severity := "warning", for_duration := "10m"
        summary := "RabbitMQ queue depth exceeds 10k messages" },
      { name := "RabbitMQNoConsumers"
        expr := "rabbitmq_queue_consumers == 0 and rabbitmq_queue_messages > 0"
        severity := "critical", for_duration := "5m"
        summary := "RabbitMQ queue has messages but no consumers" },
      { name := "RabbitMQHighMemory"
        expr := "rabbitmq_process_resident_memory_bytes / rabbitmq_node_mem_limit > 0.8"
        severity := "warning", for_duration := "5m"
        summary := "RabbitMQ memory usage above 80% of limit" }]
    dashboard_tags := ["rabbitmq", "messaging"]
    health_requirements := ["Enable the rabbitmq_prometheus plugin (ships with RabbitMQ 3.8+)"]
    recommendations := [
      "Set per-queue message TTL and max-length policies",
      "Monitor individual queue depth, not just node-level aggregates"] }

def natsProfile : ArchetypeProfile :=
  { archetype := "message-queue"
    display_name := "NATS"
    description := "Cloud-native messaging — monitor connection count, message throughput, and JetStream stream lag."
    exporter := "prometheus-nats-exporter"
    exporter_port := 7777
    golden_metrics := [
      { name := "nats_connections", query := "nats_varz_connections"
        description := "Active client connections", requires := "exporter" },
      { name := "nats_messages_in", query := "rate(nats_varz_in_msgs[5m])"
        description := "Inbound message rate", requires := "exporter" },
      { name := "nats_slow_consumers", query := "nats_varz_slow_consumers"
        description := "Slow consumer count", requires := "exporter" }]
    alerts := [
      { name := "NATSSlowConsumers", expr := "nats_varz_slow_consumers > 0"
        severity := "warning", for_duration := "5m"
        summary := "NATS has slow consumers — messages may be dropped"
        requires := "exporter" }]
    dashboard_tags := ["nats", "messaging"]
    health_requirements := ["Deploy prometheus-nats-exporter sidecar"]
    recommendations := ["Monitor JetStream consumer ack-pending for delivery guarantees"] }

def nginxProfile : ArchetypeProfile :=
  { archetype := "web-server"
    display_name := "NGINX"
    description := "Web server / reverse proxy — monitor active connections, request rate, upstream response times, and error rates."
    exporter := "nginx-prometheus-exporter (stub_status) or nginx-vts-exporter"
    exporter_port := 9113
    golden_metrics := [
      { name := "nginx_active_connections", query := "nginx_connections_active"
        description := "Currently active client connections", requires := "exporter" },
      { name := "nginx_request_rate", query := "rate(nginx_http_requests_total[5m])"
        description := "HTTP request throughput", requires := "exporter" },
      { name := "nginx_5xx_rate"
        query := "rate(nginx_http_requests_total\x7bstatus=~\"5..\"\x7d[5m])"
        description := "5xx error rate", requires := "exporter" },
      { name := "nginx_upstream_response_time"
        query := "nginx_upstream_response_time_seconds\x7bquantile=\"0.95\"\x7d"
        description := "95th percentile upstream response time", requires := "exporter" }]
    alerts := [
      { name := "NginxHighErrorRate"
        expr := "rate(nginx_http_requests_total\x7bstatus=~\"5..\"\x7d[5m]) / rate(nginx_http_requests_total[5m]) > 0.05"
        severity := "critical", for_duration := "5m"
        summary := "NGINX 5xx error rate exceeds 5%", requires := "exporter" },
      { name := "NginxConnectionsNearLimit", expr := "nginx_connections_active > 900"
        severity := "warning", for_duration := "5m"
        summary := "NGINX active connections approaching worker_connections limit"
        requires := "exporter" }]
    dashboard_tags := ["nginx", "web"]
    health_requirements := [
      "Enable stub_status or the VTS module for metrics exposure",
      "Deploy nginx-prometheus-exporter sidecar"]
    recommendations := [
      "Add upstream health checks in nginx.conf",
      "Set worker_connections based on expected concurrent load"] }

def envoyProfile : ArchetypeProfile :=
  { archetype := "reverse-proxy"
    display_name := "Envoy"
    description := "Service proxy — monitor request latency percentiles, circuit breaker state, and upstream health."
    exporter := "built-in (/stats/prometheus)"
    exporter_port := 9901
    golden_metrics := [
      { name := "envoy_request_rate", query := "rate(envoy_http_downstream_rq_total[5m])"
        description := "Downstream request rate" },
      { name := "envoy_5xx_rate"
        query := "rate(envoy_http_downstream_rq_xx\x7benvoy_response_code_class=\"5\"\x7d[5m])"
        description := "5xx response rate" },
      { name := "envoy_p99_latency"
        query := "histogram_quantile(0.99, rate(envoy_http_downstream_rq_time_bucket[5m]))"
        description := "p99 request latency" },
      { name := "envoy_cx_active", query := "envoy_http_downstream_cx_active"
        description := "Active downstream connections" }]
    alerts := [
      { name := "EnvoyHighLatency"
        expr := "histogram_quantile(0.99, rate(envoy_http_downstream_rq_time_bucket[5m])) > 1"
        severity := "warning", for_duration := "5m"
        summary := "Envoy p99 latency exceeds 1 second" },
      { name := "EnvoyCircuitBreakerTripped"
        expr := "envoy_cluster_circuit_breakers_default_cx_open > 0"
        severity := "critical", for_duration := "1m"
        summary := "Envoy circuit breaker is open — upstream is unhealthy" }]
    dashboard_tags := ["envoy", "proxy", "service-mesh"]
    health_requirements := ["Ensure /stats/prometheus endpoint is not blocked by network policy"]
    recommendations := [
      "Configure circuit breakers per upstream cluster",
      "Monitor retry budgets to avoid retry storms"] }

def haproxyProfile : ArchetypeProfile :=
  { archetype := "reverse-proxy"
    display_name := "HAProxy"
    description := "Load balancer — monitor backend health, session rate, and queue depth."
    exporter := "haproxy_exporter or built-in prometheus endpoint"
    exporter_port := 8405
    golden_metrics := [
      { name := "haproxy_backend_up", query := "haproxy_backend_up"
        description := "Backend server health" },
      { name := "haproxy_session_rate", query := "rate(haproxy_frontend_sessions_total[5m])"
        description := "Frontend session rate" },
      { name := "haproxy_queue_current", query := "haproxy_backend_current_queue"
        description := "Backend queue depth" }]
    alerts := [
      { name := "HAProxyBackendDown", expr := "haproxy_backend_up == 0"
        severity := "critical", for_duration := "1m"
        summary := "HAProxy backend is completely down" },
      { name := "HAProxyQueueBacklog", expr := "haproxy_backend_current_queue > 100"
        severity := "warning", for_duration := "5m"
        summary := "HAProxy backend queue building up" }]
    dashboard_tags := ["haproxy", "loadbalancer"]
    health_requirements := ["Enable the Prometheus endpoint in haproxy.cfg"]
    recommendations := ["Monitor per-backend server health individually"] }

def promProfile : ArchetypeProfile :=
  { archetype := "monitoring"
    display_name := "Prometheus"
    description := "Monitoring system — monitor scrape health, TSDB size, rule evaluation duration, and WAL corruption."
    exporter := "built-in (/metrics)"
    exporter_port := 9090
    golden_metrics := [
      { name := "prometheus_tsdb_head_series", query := "prometheus_tsdb_head_series"
        description := "Active time series count" },
      { name := "prometheus_target_scrape_failures"
        query := "rate(prometheus_target_scrapes_failed_total[5m])"
        description := "Scrape failure rate" },
      { name := "prometheus_rule_eval_duration"
        query := "prometheus_rule_evaluation_duration_seconds"
        description := "Rule evaluation latency" }]
    alerts := [
      { name := "PrometheusTargetDown", expr := "up == 0"
        severity := "critical", for_duration := "5m"
        summary := "Prometheus scrape target is down" },
      { name := "PrometheusTSDBCompactionFailing"
        expr := "rate(prometheus_tsdb_compactions_failed_total[5m]) > 0"
        severity := "warning", for_duration := "15m"
        summary := "Prometheus TSDB compaction failures" }]
    dashboard_tags := ["prometheus", "monitoring"]
    health_requirements := ["Prometheus exposes its own /metrics endpoint by default"]
    recommendations := [
      "Monitor cardinality — high series counts cause memory issues",
      "Set --storage.tsdb.retention.size to prevent disk exhaustion"] }

def grafanaProfile : ArchetypeProfile :=
  { archetype := "monitoring"
    display_name := "Grafana"
    description := "Visualization platform — monitor datasource health and API latency."
    exporter := "built-in (/metrics)"
    exporter_port := 3000
    golden_metrics := [
      { name := "grafana_http_request_duration"
        query := "histogram_quantile(0.95, rate(grafana_http_request_duration_seconds_bucket[5m]))"
        description := "p95 API latency" },
      { name := "grafana_datasource_errors"
        query := "rate(grafana_datasource_request_total\x7bstatus=\x27error\x27\x7d[5m])"
        description := "Datasource error rate" }]
    alerts := [
      { name := "GrafanaDatasourceErrors"
        expr := "rate(grafana_datasource_request_total\x7bstatus=\x27error\x27\x7d[5m]) > 0.5"
        severity := "warning", for_duration := "5m"
        summary := "Grafana datasource errors elevated" }]
    dashboard_tags := ["grafana", "monitoring"]
    health_requirements := ["Enable built-in Prometheus metrics in grafana.ini"]
    recommendations := ["Monitor dashboard load times for user experience"] }

def fluentdProfile : ArchetypeProfile :=
  { archetype := "logging"
    display_name := "Fluentd/Fluent Bit"
    description := "Log collector — monitor buffer queue length, retry rate, and output errors."
    exporter := "built-in (in_prometheus plugin)"
    exporter_port := 24231
    golden_metrics := [
      { name := "fluentd_buffer_queue_length"
        query := "fluentd_output_status_buffer_queue_length"
        description := "Buffer queue depth" },
      { name := "fluentd_retry_count", query := "rate(fluentd_output_status_retry_count[5m])"
        description := "Output retry rate" },
      { name := "fluentd_emit_records", query := "rate(fluentd_output_status_emit_records[5m])"
        description := "Record emission rate" }]
    alerts := [
      { name := "FluentdBufferFull", expr := "fluentd_output_status_buffer_queue_length > 256"
        severity := "critical", for_duration := "5m"
        summary := "Fluentd buffer queue is full — logs may be dropped" },
      { name := "FluentdRetryHigh", expr := "rate(fluentd_output_status_retry_count[5m]) > 1"
        severity := "warning", for_duration := "10m"
        summary := "Fluentd retry rate elevated — output destination may be unhealthy" }]
    dashboard_tags := ["fluentd", "logging"]
    health_requirements := ["Enable the in_prometheus plugin for fluentd_* metrics"]
    recommendations := [
      "Size buffers based on peak log throughput",
      "Monitor retry count per output plugin"] }

/-- `classifier._PROFILES`: the registry dict in registration order,
keyed by `registryKey`. -/
def profilesRegistry : List (String × ArchetypeProfile) :=
  [pgProfile, mysqlProfile, redisProfile, mongoProfile, esProfile, kafkaProfile,
   rabbitmqProfile, natsProfile, nginxProfile, envoyProfile, haproxyProfile,
   promProfile, grafanaProfile, fluentdProfile].map fun p => (registryKey p, p)

/-- `classifier.get_profile`. -/
def getProfile (archetype : String) : Option ArchetypeProfile :=
  alistGet? profilesRegistry archetype

/-- `classifier.EXPORTER_IMAGE_PATTERNS`, each regex expanded into the
equivalent list of case-insensitive substring alternatives (all patterns
are unanchored substring searches with only optional characters, so the
expansion is finite and exact; alternatives subsumed by shorter ones —
optional prefixes at the start of an unanchored pattern — are dropped). -/
def exporterImagePatterns : List (String × List String) :=
  [("postgres_exporter", ["postgresexporter", "postgres_exporter", "postgres-exporter"]),
   ("mysqld_exporter", ["mysqlexporter", "mysql_exporter", "mysql-exporter",
                        "mysqldexporter", "mysqld_exporter", "mysqld-exporter"]),
   ("redis_exporter", ["redisexporter", "redis_exporter", "redis-exporter"]),
   ("mongodb_exporter", ["mongoexporter", "mongo_exporter", "mongo-exporter",
                         "mongodbexporter", "mongodb_exporter", "mongodb-exporter"]),
   ("elasticsearch_exporter", ["elasticsearchexporter", "elasticsearch_exporter",
                               "elasticsearch-exporter"]),
   ("kafka_exporter", ["kafkaexporter", "kafka_exporter", "kafka-exporter",
                       "jmxexporter", "jmx_exporter", "jmx-exporter"]),
   ("nats_exporter", ["natsexporter", "nats_exporter", "nats-exporter"]),
   ("nginx_exporter", ["nginxexporter", "nginx_exporter", "nginx-exporter",
                       "nginxprometheus_exporter", "nginxprometheus-exporter",
                       "nginx_prometheus_exporter", "nginx_prometheus-exporter",
                       "nginx-prometheus_exporter", "nginx-prometheus-exporter",
                       "nginx_vts", "nginx-vts"]),
   ("haproxy_exporter", ["haproxyexporter", "haproxy_exporter", "haproxy-exporter"]),
   ("node_exporter", ["nodeexporter", "node_exporter", "node-exporter"])]

/-- `classifier.BUILTIN_METRICS_PROFILES`. -/
def builtinMetricsProfiles : List String :=
  ["rabbitmq", "envoy", "haproxy", "prometheus", "grafana", "fluentd_fluent_bit", "fluentd"]

/-- One entry of `classifier._IMAGE_RULES`. -/
structure ImageRule where
  pats : List Pat
  profile : ArchetypeProfile

/-- Shorthand for alternatives followed by `[:\-]`. -/
def sepPats (lits : List String) : List Pat :=
  lits.map fun l => { lit := l.toList, seps := [':', '-'] }

/-- Shorthand for alternatives with no trailing separator class. -/
def barePats (lits : List String) : List Pat :=
  lits.map fun l => { lit := l.toList, seps := [] }

/-- `classifier._IMAGE_RULES`, in order; each regex expanded into
anchored-literal alternatives (see `Pat`). -/
def imageRules : List ImageRule :=
  [⟨sepPats ["postgres", "postgresql"] ++
      [{ lit := "pg".toList, seps := ['_', '-'], startOk := false }], pgProfile⟩,
   ⟨sepPats ["mysql", "mariadb", "percona"], mysqlProfile⟩,
   ⟨sepPats ["mongo", "mongodb"], mongoProfile⟩,
   ⟨sepPats ["redis", "valkey", "keydb", "dragonfly"], redisProfile⟩,
   ⟨sepPats ["memcache", "memcached"], redisProfile⟩,
   ⟨sepPats ["elasticsearch", "opensearch"], esProfile⟩,
   ⟨barePats ["elastic/elasticsearch"], esProfile⟩,
   ⟨sepPats ["kafka", "confluentinc/cp-kafka", "bitnami/kafka"], kafkaProfile⟩,
   ⟨sepPats ["rabbitmq"], rabbitmqProfile⟩,
   ⟨sepPats ["nats"], natsProfile⟩,
   ⟨sepPats ["nginx"], nginxProfile⟩,
   ⟨sepPats ["httpd", "apache"], nginxProfile⟩,
   ⟨sepPats ["caddy"], nginxProfile⟩,
   ⟨sepPats ["envoy", "envoyproxy"], envoyProfile⟩,
   ⟨sepPats ["haproxy"], haproxyProfile⟩,
   ⟨barePats ["istio/proxyv2"], envoyProfile⟩,
   ⟨sepPats ["traefik"], envoyProfile⟩,
   ⟨barePats ["prom/prometheus", "prometheus/prometheus"], promProfile⟩,
   ⟨barePats ["grafana/grafana"], grafanaProfile⟩,
   ⟨sepPats ["fluentd", "fluent-bit", "fluent/fluent-bit"], fluentdProfile⟩]

/-- `classifier._PORT_HINTS`. -/
def portHints : List (Nat × String × String) :=
  [(5432, "database", "postgresql"),
   (3306, "database", "mysql"),
   (27017, "database", "mongodb"),
   (6379, "cache", "redis"),
   (11211, "cache", "redis"),
   (9200, "search-engine", "elasticsearch"),
   (9092, "message-queue", "kafka"),
   (5672, "message-queue", "rabbitmq"),
   (4222, "message-queue", "nats"),
   (9090, "monitoring", "prometheus"),
   (3000, "monitoring", "grafana")]

/-- `classifier._ENV_HINTS`. -/
def envHints : List (String × String × String) :=
  [("POSTGRES_PASSWORD", "database", "postgresql"),
   ("POSTGRES_DB", "database", "postgresql"),
   ("PGDATA", "database", "postgresql"),
   ("MYSQL_ROOT_PASSWORD", "database", "mysql"),
   ("MYSQL_DATABASE", "database", "mysql"),
   ("MONGO_INITDB_ROOT_USERNAME", "database", "mongodb"),
   ("REDIS_PASSWORD", "cache", "redis"),
   ("REDIS_URL", "cache", "redis"),
   ("ELASTICSEARCH_HOSTS", "search-engine", "elasticsearch"),
   ("KAFKA_BROKER_ID", "message-queue", "kafka"),
   ("KAFKA_ZOOKEEPER_CONNECT", "message-queue", "kafka"),
   ("RABBITMQ_DEFAULT_USER", "message-queue", "rabbitmq")]

/-- `classifier.Classification`.  `score` counts hundredths of the Python
float (0.95 ↦ 95). -/
structure Classification where
  archetype : String
  profile : Option ArchetypeProfile
  confidence : String
  score : Nat
  match_source : String
  evidence : List String := []
  deriving Repr, DecidableEq

/-- Evidence weights, in hundredths. -/
def wImage : Nat := 70
def wPort : Nat := 25
def wEnv : Nat := 15
def wLabel : Nat := 20

/-- `classifier._bucket` (thresholds 0.60 and 0.15 in hundredths). -/
def bucket (score : Nat) : String :=
  if score ≥ 60 then "high"
  else if score ≥ 15 then "medium"
  else "low"

/-- One candidate accumulator entry: `(score, profile, evidence)`. -/
abbrev Candidates := List (String × (Nat × ArchetypeProfile × List String))

/-- The inner `_add` closure of `classify_image`: dict update keeps the
key's original position, a new key is appended. -/
def candAdd (cands : Candidates) (key : String) (profile : ArchetypeProfile)
    (weight : Nat) (reason : String) : Candidates :=
  if alistHasKey cands key then
    cands.map fun e =>
      if e.1 = key then (e.1, (e.2.1 + weight, e.2.2.1, e.2.2.2 ++ [reason])) else e
  else
    cands ++ [(key, (weight, profile, [reason]))]

/-- Step 1 of `classify_image`: only the first matching image rule fires. -/
def imageStep (image : String) (cands : Candidates) : Candidates :=
  match imageRules.find? (fun rule => anchoredSearch rule.pats image) with
  | some rule => candAdd cands (registryKey rule.profile) rule.profile wImage ("image:" ++ image)
  | none => cands

/-- Step 2: port heuristics (the unresolved-profile branch synthesizes a
placeholder profile exactly as the source does). -/
def portStep (ports : List Nat) (cands : Candidates) : Candidates :=
  foldlInit ports (cands) fun acc port =>
    match portHints.find? (fun h => h.1 = port) with
    | some (_, archetype, profileKey) =>
      match getProfile profileKey with
      | some profile => candAdd acc profileKey profile wPort ("port:" ++ toString port)
      | none =>
        candAdd acc ("_unresolved_" ++ archetype)
          { archetype := archetype, display_name := archetype, description := "" }
          wPort ("port:" ++ toString port)
    | none => acc

/-- The body of step 3's loop: `seen` is the `seen_env_profiles` set (a
list, since membership is all that is used); it is extended before the
profile lookup, exactly as in the source. -/
def envStepGo : List String → Candidates → List String → Candidates
  | [], cands, _ => cands
  | env :: rest, cands, seen =>
    match envHints.find? (fun h => h.1 = env) with
    | some (_, _, profileKey) =>
      if seen.contains profileKey then envStepGo rest cands seen
      else
        match getProfile profileKey with
        | some profile =>
          envStepGo rest (candAdd cands profileKey profile wEnv ("env:" ++ env))
            (seen ++ [profileKey])
        | none => envStepGo rest cands (seen ++ [profileKey])
    | none => envStepGo rest cands seen

/-- Step 3: env heuristics, counting each profile at most once. -/
def envStep (env_vars : List String) (cands : Candidates) : Candidates :=
  envStepGo env_vars cands []

/-- Specification-side helper (not from the source): drop every env var
whose profile hint was already hit, mirroring the `seen` discipline.  Used
to state that multiple env hits for one profile do not stack. -/
def dedupEnvHits : List String → List String → List String
  | [], _ => []
  | env :: rest, seen =>
    match envHints.find? (fun h => h.1 = env) with
    | some (_, _, profileKey) =>
      if seen.contains profileKey then dedupEnvHits rest seen
      else env :: dedupEnvHits rest (seen ++ [profileKey])
    | none => env :: dedupEnvHits rest seen

/-- Step 4: label heuristics over `app.kubernetes.io/name`. -/
def labelStep (labels : List (String × String)) (cands : Candidates) : Candidates :=
  let appName := lowerStr (alistGetD labels "app.kubernetes.io/name" "")
  if appName = "" then cands
  else
    let probe :=
      if containsSub appName ":" || containsSub appName "-" then appName else appName ++ ":"
    match imageRules.find? (fun rule => anchoredSearch rule.pats probe) with
    | some rule =>
      candAdd cands (registryKey rule.profile) rule.profile wLabel
        ("label:app.kubernetes.io/name=" ++ appName)
    | none => cands

/-- Python `max(candidates, key=...)`: the first key attaining the
maximal score, in dict order. -/
def bestCandidate : Candidates → Option (String × (Nat × ArchetypeProfile × List String))
  | [] => none
  | e :: rest =>
    match bestCandidate rest with
    | none => some e
    | some b => if b.2.1 > e.2.1 then some b else some e

/-- `classifier.classify_image`. -/
def classify_image (image : String) (ports : List Nat) (env_vars : List String)
    (labels : List (String × String) := []) : Classification :=
  let cands :=
    labelStep labels (envStep env_vars (portStep ports (imageStep image [])))
  match bestCandidate cands with
  | some (_, rawScore, bestProfile, evidence) =>
    let score := min rawScore 100
    let primary := evidence.headD "unknown"
    let source :=
      if strStartsWith "image:" primary then "image"
      else primary
    { archetype := bestProfile.archetype
      profile := some bestProfile
      confidence := bucket score
      score := score
      match_source := source
      evidence := evidence }
  | none =>
    { archetype := "custom-app"
      profile := none
      confidence := "low"
      score := 10
      match_source := "fallback"
      evidence := ["no matching signals"] }

/-! ## JSON values

Python dicts/lists/scalars flowing through `json.dumps`/`json.loads`,
pydantic `model_dump`, and raw manifests are modelled by this inductive
type.  `json.loads (json.dumps v) = v` holds for these values, so
persistence through a TEXT column is modelled at the value level. -/

inductive Json where
  | null : Json
  | bool (b : Bool) : Json
  | num (n : Int) : Json
  /-- A Python float, in exact hundredths (the only floats in the model
  are the two-decimal classifier scores). -/
  | flt (hundredths : Int) : Json
  | str (s : String) : Json
  | arr (items : List Json) : Json
  | obj (entries : List (String × Json)) : Json
  deriving Repr

mutual
def Json.beq : Json → Json → Bool
  | .null, .null => true
  | .bool a, .bool b => a = b
  | .num a, .num b => a = b
  | .flt a, .flt b => a = b
  | .str a, .str b => a = b
  | .arr a, .arr b => Json.beqList a b
  | .obj a, .obj b => Json.beqObj a b
  | _, _ => false

def Json.beqList : List Json → List Json → Bool
  | [], [] => true
  | a :: as, b :: bs => Json.beq a b && Json.beqList as bs
  | _, _ => false

def Json.beqObj : List (String × Json) → List (String × Json) → Bool
  | [], [] => true
  | (ka, va) :: as, (kb, vb) :: bs => ka = kb && Json.beq va vb && Json.beqObj as bs
  | _, _ => false
end

/-- Render the exact-hundredths model of a Python float the way `repr` /
`json.dumps` renders the two-decimal values appearing in this code base
(`0.95`, `1.0`, `0.7`, …). -/
def fltRepr (hundredths : Int) : String :=
  let sign := if hundredths < 0 then "-" else ""
  let n := hundredths.natAbs
  let frac := n % 100
  sign ++ toString (n / 100) ++ "." ++
    (if frac = 0 then "0"
     else if frac % 10 = 0 then toString (frac / 10)
     else if frac < 10 then "0" ++ toString frac
     else toString frac)

/-- Python `str(x)` / f-string rendering of a scalar JSON value (used for
`f"metrics_port:{cp}"` on a value read out of a manifest). -/
def Json.pyStr : Json → String
  | .null => "None"
  | .bool true => "True"
  | .bool false => "False"
  | .num n => toString n
  | .flt h => fltRepr h
  | .str s => s
  | .arr _ => "[...]"
  | .obj _ => "\x7b...\x7d"

/-- Python truthiness of a JSON value. -/
def Json.truthy : Json → Bool
  | .null => false
  | .bool b => b
  | .num n => n ≠ 0
  | .flt h => h ≠ 0
  | .str s => s ≠ ""
  | .arr items => !items.isEmpty
  | .obj entries => !entries.isEmpty

/-- `doc.get(k, default)` on a JSON object (non-objects have no keys). -/
def Json.getD (j : Json) (k : String) (d : Json) : Json :=
  match j with
  | .obj entries => alistGetD entries k d
  | _ => d

/-- `k in doc`. -/
def Json.hasKey (j : Json) (k : String) : Bool :=
  match j with
  | .obj entries => alistHasKey entries k
  | _ => false

/-- Escape a string for JSON output (the characters that actually occur in
the repository's data: quote and backslash; other characters pass
through). -/
def jsonEscape (s : String) : String :=
  String.mk (foldrInit s.toList ([]) fun c acc =>
    if c = '"' then '\\' :: '"' :: acc
    else if c = '\\' then '\\' :: '\\' :: acc
    else c :: acc)

mutual
/-- `json.dumps` with default separators (single line). -/
def Json.dumps : Json → String
  | .null => "null"
  | .bool true => "true"
  | .bool false => "false"
  | .num n => toString n
  | .flt h => fltRepr h
  | .str s => "\"" ++ jsonEscape s ++ "\""
  | .arr items => "[" ++ Json.dumpsList items ++ "]"
  | .obj entries => "\x7b" ++ Json.dumpsObj entries ++ "\x7d"

def Json.dumpsList : List Json → String
  | [] => ""
  | [x] => Json.dumps x
  | x :: xs => Json.dumps x ++ ", " ++ Json.dumpsList xs

def Json.dumpsObj : List (String × Json) → String
  | [] => ""
  | [(k, v)] => "\"" ++ jsonEscape k ++ "\": " ++ Json.dumps v
  | (k, v) :: xs => "\"" ++ jsonEscape k ++ "\": " ++ Json.dumps v ++ ", " ++ Json.dumpsObj xs
end

/-! ## `models.py` — pydantic data model -/

/-- `models.ContainerSpec`. -/
structure ContainerSpec where
  name : String
  image : String := ""
  ports : List Nat := []
  env_vars : List String := []
  resource_requests : List (String × String) := []
  resource_limits : List (String × String) := []
  liveness_probe : Bool := false
  readiness_probe : Bool := false
  startup_probe : Bool := false
  archetype : String := "custom-app"
  archetype_display : String := ""
  archetype_confidence : String := "low"
  archetype_score : Nat := 10
  archetype_match_source : String := "fallback"
  archetype_evidence : List String := []
  deriving Repr, DecidableEq

/-- `models.K8sResource`. -/
structure K8sResource where
  api_version : String := ""
  kind : String
  name : String
  «namespace» : String := "default"
  labels : List (String × String) := []
  annotations : List (String × String) := []
  source_file : String := ""
  raw : Json := .obj []
  replicas : Option Int := none
  containers : List ContainerSpec := []
  selector : List (String × String) := []
  telemetry : List String := []
  service_type : Option String := none
  service_ports : List Json := []
  ingress_rules : List Json := []
  deriving Repr

/-- `K8sResource.is_workload`. -/
def K8sResource.is_workload (r : K8sResource) : Bool :=
  ["Deployment", "StatefulSet", "DaemonSet", "Job", "CronJob"].contains r.kind

/-- `K8sResource.qualified_name`. -/
def K8sResource.qualified_name (r : K8sResource) : String :=
  r.«namespace» ++ "/" ++ r.kind ++ "/" ++ r.name

/-- `models.ServiceRelationship`. -/
structure ServiceRelationship where
  source : String
  target : String
  rel_type : String
  deriving Repr, DecidableEq

/-- `models.IaCSource` (the enum's `.value` strings). -/
def iacSourceValues : List String := ["terraform", "helm", "kustomize", "pulumi"]

/-- `models.IaCResource` (`source` holds the enum value string). -/
structure IaCResource where
  source : String
  source_file : String := ""
  resource_type : String
  name : String := ""
  provider : String := ""
  properties : List (String × Json) := []
  archetype : String := ""
  monitoring_notes : List String := []
  deriving Repr

/-- `models.IaCDiscovery`. -/
structure IaCDiscovery where
  resources : List IaCResource := []
  helm_releases : List (List (String × Json)) := []
  k8s_resources_from_iac : List K8sResource := []
  files_scanned : List String := []
  errors : List String := []
  deriving Repr

/-- `IaCDiscovery.summary`: counts by source value, in first-seen order. -/
def IaCDiscovery.summary (d : IaCDiscovery) : List (String × Nat) :=
  foldlInit d.resources ([]) fun counts r =>
    if alistHasKey counts r.source then
      counts.map fun e => if e.1 = r.source then (e.1, e.2 + 1) else e
    else counts ++ [(r.source, 1)]

/-- `models.AwsDiscovery`. -/
structure AwsDiscovery where
  resources : List IaCResource := []
  region : String := ""
  regions_scanned : List String := []
  errors : List String := []
  deriving Repr

/-- `AwsDiscovery.summary`: counts by resource type. -/
def AwsDiscovery.summary (d : AwsDiscovery) : List (String × Nat) :=
  foldlInit d.resources ([]) fun counts r =>
    if alistHasKey counts r.resource_type then
      counts.map fun e => if e.1 = r.resource_type then (e.1, e.2 + 1) else e
    else counts ++ [(r.resource_type, 1)]

/-- `AwsDiscovery.service_names`: unique AWS service prefixes, sorted. -/
def AwsDiscovery.service_names (d : AwsDiscovery) : List String :=
  let services := foldlInit d.resources (([] : List String)) fun acc r =>
    let stripped :=
      if strStartsWith "aws_" r.resource_type then
        String.mk (r.resource_type.toList.drop 4)
      else r.resource_type
    let svc :=
      match (stripped.toList.splitOn '_').head? with
      | some cs => String.mk cs
      | none => stripped
    if acc.contains svc then acc else acc ++ [svc]
  pySortStrings services

/-- `models.Platform`. -/
structure Platform where
  repo_path : String := ""
  resources : List K8sResource := []
  relationships : List ServiceRelationship := []
  namespaces : List String := []
  manifest_files : List String := []
  errors : List String := []
  iac_discovery : Option IaCDiscovery := none
  aws_discovery : Option AwsDiscovery := none
  deriving Repr

/-- `Platform.workloads`. -/
def Platform.workloads (p : Platform) : List K8sResource :=
  p.resources.filter fun r => r.is_workload

/-- `Platform.services`. -/
def Platform.services (p : Platform) : List K8sResource :=
  p.resources.filter fun r => r.kind = "Service"

/-- `Platform.has_service_monitors`. -/
def Platform.has_service_monitors (p : Platform) : Bool :=
  p.resources.any fun r => r.kind = "ServiceMonitor" || r.kind = "PodMonitor"

/-- `Platform.summary`: resource counts by kind, in first-seen order. -/
def Platform.summary (p : Platform) : List (String × Nat) :=
  foldlInit p.resources ([]) fun counts r =>
    if alistHasKey counts r.kind then
      counts.map fun e => if e.1 = r.kind then (e.1, e.2 + 1) else e
    else counts ++ [(r.kind, 1)]

/-- `models.MetricRecommendation`. -/
structure MetricRecommendation where
  metric_name : String
  description : String := ""
  query : String
  resource : String
  deriving Repr, DecidableEq

/-- `models.AlertRule` (this one, unlike `classifier.AlertSignal`, carries
`nodata_state`). -/
structure AlertRule where
  alert_name : String
  severity : String := "warning"
  expr : String
  for_duration : String := "5m"
  summary : String := ""
  description : String := ""
  resource : String := ""
  nodata_state : String := "ok"
  deriving Repr, DecidableEq

/-- `models.DashboardPanel`. -/
structure DashboardPanel where
  title : String
  panel_type : String := "graph"
  queries : List String := []
  description : String := ""
  resource : String := ""
  deriving Repr, DecidableEq

/-- `models.DashboardSpec`. -/
structure DashboardSpec where
  title : String
  description : String := ""
  panels : List DashboardPanel := []
  tags : List String := []
  deriving Repr, DecidableEq

/-- `models.GrafanaDashboardRecommendation`. -/
structure GrafanaDashboardRecommendation where
  dashboard_id : Int
  title : String
  description : String := ""
  url : String := ""
  resource : String := ""
  archetype : String := ""
  deriving Repr, DecidableEq

/-- `models.ObservabilityPlan`. -/
structure ObservabilityPlan where
  platform_summary : String := ""
  metrics : List MetricRecommendation := []
  alerts : List AlertRule := []
  dashboards : List DashboardSpec := []
  dashboard_recommendations : List GrafanaDashboardRecommendation := []
  recommendations : List String := []
  deriving Repr, DecidableEq

/-- `models.ValidationCheck`. -/
structure ValidationCheck where
  name : String
  status : String
  message : String := ""
  fix_applied : Bool := false
  fix_description : String := ""
  fix_manifest : String := ""
  deriving Repr, DecidableEq

/-- `models.DashboardImportResult`. -/
structure DashboardImportResult where
  dashboard_id : Int
  title : String := ""
  url : String := ""
  status : String := ""
  deriving Repr, DecidableEq

/-- `models.RemediationStep`. -/
structure RemediationStep where
  title : String
  description : String := ""
  command : String := ""
  manifest : String := ""
  dashboard_id : Int := 0
  dashboard_title : String := ""
  priority : String := "medium"
  deriving Repr, DecidableEq

/-- `models.ValidationReport`. -/
structure ValidationReport where
  cluster_summary : String := ""
  checks : List ValidationCheck := []
  dashboards_imported : List DashboardImportResult := []
  recommendations : List String := []
  remediation_steps : List RemediationStep := []
  dashboards_to_import : List DashboardImportResult := []
  deriving Repr, DecidableEq

end K8sObs

namespace K8sObs

/-! ## `scanner.py` — manifest discovery, secret redaction, capability
inference -/

/-- `scanner.MAX_FILE_SIZE_BYTES` (1 MiB). -/
def MAX_FILE_SIZE_BYTES : Nat := 1048576

/-- A file met during `repo_root.rglob("*")`: relative path and size. -/
structure FileEntry where
  path : String
  size : Nat
  deriving Repr, DecidableEq

/-- Python `s.endswith(p)`. -/
def strEndsWith (p s : String) : Bool :=
  p.toList.reverse.isPrefixOf s.toList.reverse

/-- The default include patterns `**/*.yaml`, `**/*.yml`, `**/*.json` as a
path predicate (gitwildmatch `**/*.ext` matches any path with that
extension, at any depth). -/
def defaultIncludeMatch (rel : String) : Bool :=
  [".yaml", ".yml", ".json"].any fun ext => strEndsWith ext rel

/-- `scanner.discover_manifest_files`, parameterised by the include and
exclude pathspec predicates (the compiled `pathspec` objects).  Files are
assumed regular (`is_file`); a stat failure is out of model.  Returns the
matching relative paths sorted.  `excludeOk` is the
`exc_spec is None or not exc_spec.match_file(rel)` test. -/
def excludeOk (excMatch : Option (String → Bool)) (rel : String) : Bool :=
  match excMatch with
  | none => true
  | some exc => !exc rel

def discover_manifest_files (incMatch : String → Bool) (excMatch : Option (String → Bool))
    (files : List FileEntry) : List String :=
  let candidates := foldlInit files (([] : List String)) fun acc f =>
    if f.size > MAX_FILE_SIZE_BYTES then acc
    else if incMatch f.path && excludeOk excMatch f.path then acc ++ [f.path]
    else acc
  pySortStrings candidates

end K8sObs

namespace K8sObs

/-- String extraction for `doc.get(k, "")` where the source immediately
uses the result as a string (e.g. `kind`). -/
def Json.getStrD (j : Json) (k : String) (d : String) : String :=
  match j.getD k (.str d) with
  | .str s => s
  | _ => d

/-- `scanner._sanitize_raw`: on a `Secret`, drop `data`/`stringData`
entries and re-append each as a same-key object whose values are all
`"REDACTED"` (dict-comprehension then item assignment, so the re-added
fields land at the end in `data`, `stringData` order).  A `data` /
`stringData` value that is not an object is dropped entirely. -/
def sanitize_raw (doc : Json) : Json :=
  let kind := doc.getStrD "kind" ""
  if kind = "Secret" then
    match doc with
    | .obj entries =>
      let sanitized := entries.filter fun e => e.1 ≠ "data" ∧ e.1 ≠ "stringData"
      let readd := (["data", "stringData"].filterMap fun fieldName =>
        match alistGet? entries fieldName with
        | some (.obj kvs) => some (fieldName, Json.obj (kvs.map fun kv => (kv.1, Json.str "REDACTED")))
        | _ => none)
      .obj (sanitized ++ readd)
    | other => other
  else doc

mutual
/-- All string atoms (object keys and string leaves) of a JSON value. -/
def Json.atoms : Json → List String
  | .null | .bool _ | .num _ | .flt _ => []
  | .str s => [s]
  | .arr items => Json.atomsList items
  | .obj entries => Json.atomsObj entries

/-- Atoms of a list of JSON values. -/
def Json.atomsList : List Json → List String
  | [] => []
  | x :: xs => Json.atoms x ++ Json.atomsList xs

/-- Atoms of an object's entries (keys included). -/
def Json.atomsObj : List (String × Json) → List String
  | [] => []
  | (k, v) :: xs => k :: (Json.atoms v ++ Json.atomsObj xs)
end

/-- The string values sitting inside a Secret's `data`/`stringData`
objects — the secret material the redaction invariant is about. -/
def secretValues (doc : Json) : List String :=
  (["data", "stringData"].map fun fieldName =>
    match doc.getD fieldName .null with
    | .obj kvs => foldrInit kvs (([] : List String)) fun kv acc =>
        match kv.2 with
        | .str s => s :: acc
        | _ => acc
    | _ => []).foldr (· ++ ·) []

/-- The atoms of a Secret document *outside* the `data`/`stringData`
values: all other entries contribute their atoms in full, while the secret
fields contribute only their key names. -/
def nonSecretAtomsEntries : List (String × Json) → List String
  | [] => []
  | e :: rest =>
    (if e.1 = "data" ∨ e.1 = "stringData" then
      e.1 :: (match e.2 with
        | .obj kvs => kvs.map Prod.fst
        | other => other.atoms)
    else e.1 :: e.2.atoms) ++ nonSecretAtomsEntries rest

/-- `nonSecretAtomsEntries` over a whole document. -/
def nonSecretAtoms (doc : Json) : List String :=
  match doc with
  | .obj entries => nonSecretAtomsEntries entries
  | other => other.atoms

end K8sObs

namespace K8sObs

/-- Elements of a JSON array (`doc.get(k, [])` used in a `for` loop). -/
def Json.getArrD (j : Json) (k : String) : List Json :=
  match j.getD k (.arr []) with
  | .arr items => items
  | _ => []

/-- `scanner._detect_telemetry`: the capability-inference pass. -/
def detect_telemetry (parsed_containers : List ContainerSpec)
    (raw_containers : List Json) (pod_annotations : List (String × String)) :
    List String :=
  let all_images := raw_containers.map fun c => c.getStrD "image" ""
  -- 1. exporter sidecar detection
  let exporterCaps := foldlInit exporterImagePatterns (([] : List String))
    fun caps e =>
      if all_images.any (fun img => subSearch e.2 img) then
        caps ++ ["exporter:" ++ e.1]
      else caps
  -- 2. built-in metrics profiles
  let builtinCaps := foldlInit parsed_containers (([] : List String))
    fun caps c =>
      if c.archetype ≠ "custom-app" ∧ c.archetype_display ≠ "" then
        let profileKey := replaceChar '/' '_' (replaceChar ' ' '_' (lowerStr c.archetype_display))
        if builtinMetricsProfiles.contains profileKey then
          let caps := caps ++ ["builtin_metrics"]
          match getProfile profileKey with
          | some profile =>
            if profile.exporter ≠ "" then caps ++ ["exporter:" ++ profile.exporter] else caps
          | none => caps
        else caps
      else caps
  -- 3. ports named "metrics"
  let portCaps := foldlInit raw_containers (([] : List String))
    fun caps raw =>
      foldlInit (raw.getArrD "ports") (caps) fun caps port =>
        if lowerStr (port.getStrD "name" "") = "metrics" then
          caps ++ ["metrics_port:" ++ (port.getD "containerPort" (.num 0)).pyStr]
        else caps
  -- 4. prometheus scrape annotations
  let scrape := lowerStr (alistGetD pod_annotations "prometheus.io/scrape" "")
  let annCaps :=
    if scrape = "true" then
      let scrapePort := alistGetD pod_annotations "prometheus.io/port" ""
      if scrapePort ≠ "" then ["scrape_annotations", "metrics_port:" ++ scrapePort]
      else ["scrape_annotations"]
    else []
  exporterCaps ++ builtinCaps ++ portCaps ++ annCaps

/-- The §4.2 capability-tag grammar, as a decidable predicate:
`exporter:<s>`, `metrics_port:<digits>`, `builtin_metrics`,
`scrape_annotations`. -/
def capabilityGrammarOk (t : String) : Bool :=
  t = "builtin_metrics" || t = "scrape_annotations" ||
    strStartsWith "exporter:" t ||
    (strStartsWith "metrics_port:" t &&
      (let rest := String.mk (t.toList.drop "metrics_port:".length)
       rest ≠ "" && allDigits rest))

end K8sObs

namespace K8sObs

/-- Python `s.upper()` (ASCII). -/
def upperStr (s : String) : String :=
  String.mk (s.toList.map Char.toUpper)

/-- `"{:.2f}"` formatting of an exact-hundredths score. -/
def formatScore2 (score : Nat) : String :=
  let frac := score % 100
  toString (score / 100) ++ "." ++
    (if frac < 10 then "0" ++ toString frac else toString frac)

mutual
/-- `json.dumps(v, indent=2)`: the pretty printer, at a given indentation
level (the indentation string for children of level `lvl` is
`2 * (lvl + 1)` spaces). -/
def Json.dumpsInd : Json → Nat → String
  | .null, _ => "null"
  | .bool true, _ => "true"
  | .bool false, _ => "false"
  | .num n, _ => toString n
  | .flt h, _ => fltRepr h
  | .str s, _ => "\"" ++ jsonEscape s ++ "\""
  | .arr [], _ => "[]"
  | .arr items, lvl =>
    "[\n" ++ Json.dumpsIndList items (lvl + 1) ++ "\n" ++ repeatChar ' ' (2 * lvl) ++ "]"
  | .obj [], _ => "\x7b\x7d"
  | .obj entries, lvl =>
    "\x7b\n" ++ Json.dumpsIndObj entries (lvl + 1) ++ "\n" ++ repeatChar ' ' (2 * lvl) ++ "\x7d"

def Json.dumpsIndList : List Json → Nat → String
  | [], _ => ""
  | [x], lvl => repeatChar ' ' (2 * lvl) ++ Json.dumpsInd x lvl
  | x :: xs, lvl =>
    repeatChar ' ' (2 * lvl) ++ Json.dumpsInd x lvl ++ ",\n" ++ Json.dumpsIndList xs lvl

def Json.dumpsIndObj : List (String × Json) → Nat → String
  | [], _ => ""
  | [(k, v)], lvl =>
    repeatChar ' ' (2 * lvl) ++ "\"" ++ jsonEscape k ++ "\": " ++ Json.dumpsInd v lvl
  | (k, v) :: xs, lvl =>
    repeatChar ' ' (2 * lvl) ++ "\"" ++ jsonEscape k ++ "\": " ++ Json.dumpsInd v lvl ++
      ",\n" ++ Json.dumpsIndObj xs lvl
end

/-- `json.dumps(v, indent=2)`. -/
def Json.dumpsIndent2 (v : Json) : String :=
  Json.dumpsInd v 0

/-- `pydantic.BaseModel.model_dump` for `ContainerSpec`, in field order. -/
def ContainerSpec.modelDump (c : ContainerSpec) : Json :=
  .obj [
    ("name", .str c.name),
    ("image", .str c.image),
    ("ports", .arr (c.ports.map fun p => .num p)),
    ("env_vars", .arr (c.env_vars.map Json.str)),
    ("resource_requests", .obj (c.resource_requests.map fun e => (e.1, Json.str e.2))),
    ("resource_limits", .obj (c.resource_limits.map fun e => (e.1, Json.str e.2))),
    ("liveness_probe", .bool c.liveness_probe),
    ("readiness_probe", .bool c.readiness_probe),
    ("startup_probe", .bool c.startup_probe),
    ("archetype", .str c.archetype),
    ("archetype_display", .str c.archetype_display),
    ("archetype_confidence", .str c.archetype_confidence),
    ("archetype_score", .flt c.archetype_score),
    ("archetype_match_source", .str c.archetype_match_source),
    ("archetype_evidence", .arr (c.archetype_evidence.map Json.str))]

/-- `K8sResource.model_dump(exclude={"raw"})` (the `raw` field is also
marked `exclude=True` on the model), in field order. -/
def K8sResource.modelDump (r : K8sResource) : Json :=
  .obj [
    ("api_version", .str r.api_version),
    ("kind", .str r.kind),
    ("name", .str r.name),
    ("namespace", .str r.«namespace»),
    ("labels", .obj (r.labels.map fun e => (e.1, Json.str e.2))),
    ("annotations", .obj (r.annotations.map fun e => (e.1, Json.str e.2))),
    ("source_file", .str r.source_file),
    ("replicas", match r.replicas with | some n => .num n | none => .null),
    ("containers", .arr (r.containers.map ContainerSpec.modelDump)),
    ("selector", .obj (r.selector.map fun e => (e.1, Json.str e.2))),
    ("telemetry", .arr (r.telemetry.map Json.str)),
    ("service_type", match r.service_type with | some s => .str s | none => .null),
    ("service_ports", .arr r.service_ports),
    ("ingress_rules", .arr r.ingress_rules)]

/-! ## `tools/registry.py` — analyze tools -/

/-- `registry._list_resources`. -/
def list_resources (platform : Platform) (kind : String) («namespace» : String) :
    String :=
  let filtered := platform.resources
  let filtered :=
    if kind ≠ "" then filtered.filter fun r => lowerStr r.kind = lowerStr kind else filtered
  let filtered :=
    if «namespace» ≠ "" then filtered.filter fun r => r.«namespace» = «namespace» else filtered
  if filtered.isEmpty then "No resources matched the filter."
  else
    let lines := ["Found " ++ toString filtered.length ++ " resource(s):\n"] ++
      filtered.map fun r =>
        let extras :=
          (match r.replicas with
           | some n => ["replicas=" ++ toString n]
           | none => []) ++
          (match r.service_type with
           | some s => if s ≠ "" then ["type=" ++ s] else []
           | none => [])
        let extraStr := if !extras.isEmpty then "  (" ++ joinSep ", " extras ++ ")" else ""
        "  • " ++ r.qualified_name ++ extraStr ++ "  [source: " ++ r.source_file ++ "]"
    joinSep "\n" lines

/-- `registry._get_resource_detail`. -/
def get_resource_detail (platform : Platform) (qualified_name : String) : String :=
  match platform.resources.find? (fun r => r.qualified_name = qualified_name) with
  | some r => Json.dumpsIndent2 r.modelDump
  | none => "Resource \x27" ++ qualified_name ++ "\x27 not found."

/-- `registry._get_relationships`. -/
def get_relationships (platform : Platform) (resource : String) : String :=
  let rels := platform.relationships
  let rels :=
    if resource ≠ "" then rels.filter fun r => resource = r.source ∨ resource = r.target
    else rels
  if rels.isEmpty then "No relationships found."
  else
    let lines := ["Found " ++ toString rels.length ++ " relationship(s):\n"] ++
      rels.map fun r => "  " ++ r.source ++ "  --[" ++ r.rel_type ++ "]-->  " ++ r.target
    joinSep "\n" lines

end K8sObs

namespace K8sObs

/-- `wl.telemetry` exporter test shared by summary/gaps/insights. -/
def hasExporterTag (telemetry : List String) : Bool :=
  telemetry.any fun t => strStartsWith "exporter:" t || t = "builtin_metrics"

/-- `wl.telemetry` scrape-path test. -/
def hasScrapeTag (telemetry : List String) : Bool :=
  telemetry.any fun t => t = "scrape_annotations" || strStartsWith "metrics_port:" t

/-- `registry._get_platform_summary`. -/
def get_platform_summary (platform : Platform) : String :=
  let summary := platform.summary
  let lines := [
    "Repository: " ++ platform.repo_path,
    "Namespaces: " ++ joinSep ", " platform.namespaces,
    "Total resources: " ++ toString platform.resources.length,
    "Manifest files: " ++ toString platform.manifest_files.length,
    "",
    "Resource counts:"]
  let lines := lines ++
    (pySortByKey Prod.fst summary).map fun e =>
      "  " ++ e.1 ++ ": " ++ toString e.2
  let workloads := platform.workloads
  let lines := lines ++
    (if !workloads.isEmpty then
      let ready := (workloads.filter fun wl =>
        hasExporterTag wl.telemetry && hasScrapeTag wl.telemetry).length
      let partial_ := (workloads.filter fun wl =>
        (hasExporterTag wl.telemetry != hasScrapeTag wl.telemetry)).length
      let notReady := (workloads.filter fun wl =>
        !hasExporterTag wl.telemetry && !hasScrapeTag wl.telemetry).length
      let total := workloads.length
      ["",
       "Observability Readiness:",
       "  READY:     " ++ toString ready ++ "/" ++ toString total ++
         " workloads (exporter + scrape path)",
       "  PARTIAL:   " ++ toString partial_ ++ "/" ++ toString total ++
         " workloads (exporter OR scrape, not both)",
       "  NOT READY: " ++ toString notReady ++ "/" ++ toString total ++
         " workloads (no metrics exposure)"]
    else [])
  let lines := lines ++
    (match platform.iac_discovery with
     | some iac =>
       if !iac.resources.isEmpty then
         ["", "Infrastructure as Code:"] ++
           iac.summary.map (fun e => "  " ++ e.1 ++ ": " ++ toString e.2 ++ " resources") ++
           (let infraWithArch := iac.resources.filter fun r =>
              r.archetype ≠ "" ∧ r.archetype ≠ "custom-app"
            if !infraWithArch.isEmpty then
              ["", "Infrastructure requiring monitoring:"] ++
                (foldrInit infraWithArch (([] : List String)) fun r acc =>
                  ("  " ++ r.resource_type ++ "/" ++ r.name ++ " [" ++ r.archetype ++ "]") ::
                    ((r.monitoring_notes.take 2).map fun note => "    → " ++ note) ++ acc)
            else [])
       else []
     | none => [])
  let lines := lines ++
    (match platform.aws_discovery with
     | some aws =>
       if !aws.resources.isEmpty then
         let regions :=
           if !aws.regions_scanned.isEmpty then aws.regions_scanned
           else if aws.region ≠ "" then [aws.region] else []
         ["", "AWS Live Resources:"] ++
           (if !regions.isEmpty then ["  Regions: " ++ joinSep ", " regions] else []) ++
           (pySortByKey Prod.fst aws.summary).map
             (fun e => "  " ++ e.1 ++ ": " ++ toString e.2) ++
           (let awsWithArch := aws.resources.filter fun r =>
              r.archetype ≠ "" ∧ r.archetype ≠ "custom-app"
            if !awsWithArch.isEmpty then
              ["", "AWS infrastructure requiring monitoring:"] ++
                (foldrInit awsWithArch (([] : List String)) fun r acc =>
                  ("  " ++ r.resource_type ++ "/" ++ r.name ++ " [" ++ r.archetype ++ "]") ::
                    ((r.monitoring_notes.take 2).map fun note => "    → " ++ note) ++ acc)
            else [])
       else []
     | none => [])
  joinSep "\n" lines

/-- The key whitelist of `_get_iac_resources`'s `shown` dict. -/
def iacShownKeys : List String :=
  ["engine", "engine_version", "instance_class", "node_type", "chart", "repository",
   "image", "version", "description", "runtime", "namespace"]

/-- `setdefault`-style grouping preserving first-seen group order. -/
def groupBySetdefault (keyOf : IaCResource → String) (resources : List IaCResource) :
    List (String × List IaCResource) :=
  foldlInit resources ([]) fun acc r =>
    if alistHasKey acc (keyOf r) then
      acc.map fun e => if e.1 = keyOf r then (e.1, e.2 ++ [r]) else e
    else acc ++ [(keyOf r, [r])]

/-- `registry._get_iac_resources`. -/
def get_iac_resources (platform : Platform) (source : String) : String :=
  match platform.iac_discovery with
  | none => "No Infrastructure-as-Code resources found in this repository."
  | some iac =>
    if iac.resources.isEmpty then
      "No Infrastructure-as-Code resources found in this repository."
    else
      let resources := iac.resources
      let resources :=
        if source ≠ "" then resources.filter fun r => r.source = lowerStr source
        else resources
      if source ≠ "" ∧ resources.isEmpty then
        "No " ++ source ++ " resources found. Available sources: " ++
          joinSep ", " (iac.summary.map Prod.fst)
      else
        let lines := [
          "IaC resources found: " ++ toString resources.length,
          "Sources: " ++ joinSep ", " (iac.summary.map fun e => e.1 ++ "=" ++ toString e.2),
          "Files scanned: " ++ toString iac.files_scanned.length,
          ""]
        let bySource := groupBySetdefault (fun r => r.source) resources
        let lines := lines ++ foldrInit bySource (([] : List String)) fun (src, srcRes) acc =>
          ("── " ++ upperStr src ++ " (" ++ toString srcRes.length ++ " resources) ──") ::
            (foldrInit srcRes (acc) fun r acc2 =>
              ("  " ++ r.resource_type ++ "/" ++ r.name) ::
                ((if r.provider ≠ "" then ["    provider: " ++ r.provider] else []) ++
                 (if r.archetype ≠ "" ∧ r.archetype ≠ "custom-app" then
                    ["    archetype: " ++ r.archetype] else []) ++
                 (r.monitoring_notes.map fun note => "    → " ++ note) ++
                 (let shown := r.properties.filter fun e => iacShownKeys.contains e.1
                  if !shown.isEmpty then ["    properties: " ++ Json.dumps (.obj shown)]
                  else []) ++
                 [""] ++ acc2))
        let lines := lines ++
          (if !iac.helm_releases.isEmpty then
            ("── HELM RELEASES (" ++ toString iac.helm_releases.length ++ ") ──") ::
              (iac.helm_releases.map fun hr =>
                "  chart=" ++ (alistGetD hr "chart" (Json.str "?")).pyStr ++
                  "  repo=" ++ (alistGetD hr "repository" (Json.str "")).pyStr) ++ [""]
          else [])
        joinSep "\n" lines

/-- The key whitelist of `_get_aws_resources`'s `shown` dict. -/
def awsShownKeys : List String :=
  ["engine", "engine_version", "instance_class", "node_type", "endpoint", "port",
   "multi_az", "runtime", "memory_mb", "instance_type", "version", "kafka_version",
   "billing_mode", "num_nodes", "broker_nodes", "desired_count", "running_count"]

/-- `registry._get_aws_resources`. -/
def get_aws_resources (platform : Platform) (service : String) : String :=
  match platform.aws_discovery with
  | none => "No AWS resources discovered. Run with --aws-region to enable AWS discovery."
  | some aws =>
    if aws.resources.isEmpty then
      "No AWS resources discovered. Run with --aws-region to enable AWS discovery."
    else
      let resources := aws.resources
      let resources :=
        if service ≠ "" then
          resources.filter fun r => containsSub (lowerStr r.resource_type) (lowerStr service)
        else resources
      if service ≠ "" ∧ resources.isEmpty then
        "No " ++ service ++ " resources found. Available services: " ++
          joinSep ", " aws.service_names
      else
        let regions :=
          if !aws.regions_scanned.isEmpty then aws.regions_scanned
          else if aws.region ≠ "" then [aws.region] else ["(default)"]
        let lines := [
          "AWS resources found: " ++ toString resources.length,
          "Regions: " ++ joinSep ", " regions,
          ""]
        let byType := pySortByKey Prod.fst
          (groupBySetdefault (fun r => r.resource_type) resources)
        let lines := lines ++ foldrInit byType (([] : List String)) fun (rtype, rs) acc =>
          ("── " ++ upperStr rtype ++ " (" ++ toString rs.length ++ ") ──") ::
            (foldrInit rs (acc) fun r acc2 =>
              let status := alistGetD r.properties "status" (Json.str "")
              let statusStr := if status.truthy then "  status=" ++ status.pyStr else ""
              ("  " ++ r.name ++ statusStr) ::
                ((if r.archetype ≠ "" ∧ r.archetype ≠ "custom-app" then
                    ["    archetype: " ++ r.archetype] else []) ++
                 (r.monitoring_notes.map fun note => "    → " ++ note) ++
                 (let shown := r.properties.filter fun e => awsShownKeys.contains e.1
                  if !shown.isEmpty then ["    properties: " ++ Json.dumps (.obj shown)]
                  else []) ++
                 [""] ++ acc2))
        let lines := lines ++
          (if !aws.errors.isEmpty then
            "── ERRORS ──" :: aws.errors.map fun err => "  ⚠ " ++ err
          else [])
        joinSep "\n" lines

/-- `registry._check_health_gaps`. -/
def check_health_gaps (platform : Platform) : String :=
  let gaps := foldrInit platform.workloads (([] : List String)) fun wl acc =>
    foldrInit wl.containers (acc) fun c acc2 =>
      (if !c.liveness_probe then
        ["  ⚠ " ++ wl.qualified_name ++ " / container \x27" ++ c.name ++
          "\x27: missing liveness probe"] else []) ++
      (if !c.readiness_probe then
        ["  ⚠ " ++ wl.qualified_name ++ " / container \x27" ++ c.name ++
          "\x27: missing readiness probe"] else []) ++
      (if c.resource_requests.isEmpty then
        ["  ⚠ " ++ wl.qualified_name ++ " / container \x27" ++ c.name ++
          "\x27: no resource requests set"] else []) ++
      (if c.resource_limits.isEmpty then
        ["  ⚠ " ++ wl.qualified_name ++ " / container \x27" ++ c.name ++
          "\x27: no resource limits set"] else []) ++
      (if c.archetype ≠ "custom-app" then
        let profileKey :=
          if c.archetype_display ≠ "" then
            replaceChar '/' '_' (replaceChar ' ' '_' (lowerStr c.archetype_display))
          else c.archetype
        match getProfile profileKey with
        | some profile =>
          (if profile.exporter ≠ "" ∧ !hasExporterTag wl.telemetry then
            ["  ⚠ " ++ wl.qualified_name ++ " / \x27" ++ c.name ++ "\x27 (" ++
              profile.display_name ++ "): missing " ++ profile.exporter ++
              " — domain metrics will not be available. All " ++ profile.display_name ++
              "-specific alerts require this exporter."] else []) ++
          (profile.health_requirements.map fun req =>
            "  ℹ " ++ wl.qualified_name ++ " / \x27" ++ c.name ++ "\x27 (" ++
              profile.display_name ++ "): " ++ req)
        | none => []
      else []) ++ acc2
  let workloadQnames := platform.workloads.map fun r => r.qualified_name
  let gaps := gaps ++ foldrInit platform.services (([] : List String)) fun svc acc =>
    let hasTarget := platform.relationships.any fun rel =>
      rel.source = svc.qualified_name && workloadQnames.contains rel.target
    if !hasTarget ∧ !svc.selector.isEmpty then
      ("  ⚠ " ++ svc.qualified_name ++ ": selector does not match any workload") :: acc
    else acc
  if gaps.isEmpty then
    "No observability gaps detected — all workloads have probes and resource specs."
  else
    let gaps :=
      if platform.has_service_monitors then
        ("  ℹ ServiceMonitor/PodMonitor resources detected — advanced Prometheus Operator scraping is configured.") :: gaps
      else
        gaps ++ ["  ℹ No ServiceMonitor/PodMonitor resources found — consider adding them for Prometheus Operator auto-discovery."]
    "Found " ++ toString gaps.length ++ " gap(s):\n" ++ joinSep "\n" gaps

end K8sObs

namespace K8sObs

/-- Python `(wl.replicas or 1)`: `None` and `0` are falsy. -/
def replicasOr1 (r : Option Int) : Int :=
  match r with
  | none => 1
  | some n => if n = 0 then 1 else n

/-- `requires.split(",")` with `.strip().lower()` applied to each part. -/
def splitRequires (requires : String) : List String :=
  (requires.toList.splitOn ',').map fun cs =>
    lowerStr (String.mk ((cs.dropWhile Char.isWhitespace).reverse.dropWhile
      Char.isWhitespace).reverse)

/-- `registry._check_single_req`. -/
def check_single_req (req : String) (wl : K8sResource) : Bool :=
  if req = "replicas>1" then replicasOr1 wl.replicas > 1
  else if req = "statefulset" then wl.kind = "StatefulSet"
  else if req = "exporter" then
    wl.telemetry.any fun t => strStartsWith "exporter:" t || t = "builtin_metrics"
  else true

/-- `registry._check_requires`. -/
def check_requires (requires : String) (wl : K8sResource) : Bool :=
  if requires = "" then true
  else (splitRequires requires).all fun p => check_single_req p wl

/-- `registry._unmet_reason`. -/
def unmet_reason (requires : String) (wl : K8sResource) (profile : ArchetypeProfile) :
    String :=
  let parts := splitRequires requires
  let reasons := foldrInit parts (([] : List String)) fun p acc =>
    if p = "exporter" ∧ !check_single_req p wl then
      (if profile.exporter ≠ "" then "deploy " ++ profile.exporter ++ " sidecar"
       else "deploy a metrics exporter sidecar") :: acc
    else if p = "replicas>1" ∧ !check_single_req p wl then
      ("replicas=" ++ toString (replicasOr1 wl.replicas) ++ ", need >1") :: acc
    else if p = "statefulset" ∧ !check_single_req p wl then
      ("kind=" ++ wl.kind ++ ", need StatefulSet") :: acc
    else acc
  if reasons.isEmpty then requires else joinSep "; " reasons

/-- The two or three lines one golden metric contributes. -/
def metricLines (m : MetricSignal) (wl : K8sResource) (profile : ArchetypeProfile) :
    List String :=
  if m.requires ≠ "" ∧ !check_requires m.requires wl then
    ["  • " ++ m.name ++ ": " ++ m.description,
     "    PromQL: " ++ m.query,
     "    ⚠ CONDITIONAL — not collectable: " ++ unmet_reason m.requires wl profile]
  else
    ["  • " ++ m.name ++ ": " ++ m.description,
     "    PromQL: " ++ m.query]

/-- The lines one alert contributes; the first expression evaluated is
`a.nodata_state`, an attribute the `AlertSignal` dataclass does not have,
so this raises before emitting anything. -/
def alertLines (a : AlertSignal) (wl : K8sResource) (profile : ArchetypeProfile) :
    Except String (List String) := do
  let nd ← a.nodata_state
  let nodataLabel := if nd ≠ "ok" then " [nodata→" ++ nd ++ "]" else ""
  if a.requires ≠ "" ∧ !check_requires a.requires wl then
    pure ["  • " ++ a.name ++ " [" ++ a.severity ++ "] (for: " ++ a.for_duration ++ ")" ++
            nodataLabel,
          "    expr: " ++ a.expr,
          "    summary: " ++ a.summary,
          "    ⚠ CONDITIONAL — not collectable: " ++ unmet_reason a.requires wl profile]
  else
    pure ["  • " ++ a.name ++ " [" ++ a.severity ++ "] (for: " ++ a.for_duration ++ ")" ++
            nodataLabel,
          "    expr: " ++ a.expr,
          "    summary: " ++ a.summary]

/-- The section `_get_workload_insights` builds for one container of one
workload (everything inside the double `for` loop). -/
def insightsSection (wl : K8sResource) (c : ContainerSpec) : Except String String := do
  let header := "\n" ++ repeatChar '=' 60 ++ "\n" ++ wl.qualified_name ++
    " / container \x27" ++ c.name ++ "\x27\n" ++ repeatChar '=' 60
  let header := header ++ "\nImage: " ++ c.image
  let header := header ++ "\nArchetype: " ++ c.archetype
  let header := header ++
    (if c.archetype_display ≠ "" then " (" ++ c.archetype_display ++ ")" else "")
  let header := header ++ "\nConfidence: " ++ c.archetype_confidence ++ " (score: " ++
    formatScore2 c.archetype_score ++ ")"
  let header := header ++ "\nPrimary signal: " ++ c.archetype_match_source
  let header := header ++
    (if !c.archetype_evidence.isEmpty then
      "\nEvidence: " ++ joinSep " + " c.archetype_evidence
    else "")
  let header := header ++
    (if !wl.telemetry.isEmpty then
      "\nTelemetry capabilities: " ++ joinSep ", " wl.telemetry
    else "\nTelemetry capabilities: NONE DETECTED — domain metrics are NOT collectable")
  let hasExp := hasExporterTag wl.telemetry
  let hasScrape := hasScrapeTag wl.telemetry
  let header := header ++
    (if hasExp && hasScrape then
      "\nObservability readiness: READY — exporter present + scrape path configured"
    else if hasExp then
      "\nObservability readiness: PARTIAL — exporter present but no scrape annotations/ServiceMonitor detected"
    else if hasScrape then
      "\nObservability readiness: PARTIAL — scrape config exists but no known exporter detected"
    else "\nObservability readiness: NOT READY — no metrics exposure detected")
  let profileKey :=
    if c.archetype_display ≠ "" then
      replaceChar '/' '_' (replaceChar ' ' '_' (lowerStr c.archetype_display))
    else c.archetype
  match getProfile profileKey with
  | none =>
    let header := header ++
      "\n\nNo archetype profile available — this appears to be a custom application."
    let header := header ++
      (if c.archetype_score < 25 then
        "\nDetection certainty is very low. Use generic Kubernetes metrics: "
      else "\nUse generic Kubernetes metrics: ")
    let header := header ++ "container_cpu_usage_seconds_total, " ++
      "container_memory_working_set_bytes, kube_pod_status_phase, " ++
      "kube_deployment_status_replicas_unavailable."
    pure header
  | some profile =>
    let lines := [header]
    let lines := lines ++ ["\nDescription: " ++ profile.description]
    let lines := lines ++
      (if profile.exporter ≠ "" then
        ["\nRequired exporter: " ++ profile.exporter ++ " (port " ++
          toString profile.exporter_port ++ ")"]
      else [])
    let lines := lines ++
      (if !profile.golden_metrics.isEmpty then
        "\n--- Golden Metrics ---" ::
          (foldrInit profile.golden_metrics (([] : List String)) fun m acc =>
            metricLines m wl profile ++ acc)
      else [])
    let lines ← (if !profile.alerts.isEmpty then do
        let alertsLines ← foldlMInit profile.alerts (([] : List String))
          fun acc a => do
            let ls ← alertLines a wl profile
            pure (acc ++ ls)
        pure (lines ++ ("\n--- Recommended Alerts ---" :: alertsLines))
      else pure lines)
    let gds ← profile.grafana_dashboards
    let lines := lines ++
      (if !gds.isEmpty then
        "\n--- Recommended Grafana Dashboards (ready to import) ---" :: gds
      else [])
    let lines := lines ++
      (if !profile.dashboard_tags.isEmpty then
        ["\nDashboard tags: " ++ joinSep ", " profile.dashboard_tags]
      else [])
    let lines := lines ++
      (if !profile.recommendations.isEmpty then
        "\n--- Recommendations ---" :: profile.recommendations.map fun r => "  • " ++ r
      else [])
    pure (joinSep "\n" lines)

/-- `registry._get_workload_insights`. -/
def get_workload_insights (platform : Platform) (qualified_name : String) :
    Except String String := do
  let workloads := platform.workloads
  let workloads :=
    if qualified_name ≠ "" then
      workloads.filter fun w => w.qualified_name = qualified_name
    else workloads
  if qualified_name ≠ "" ∧ workloads.isEmpty then
    pure ("Workload \x27" ++ qualified_name ++ "\x27 not found.")
  else do
    let sections ← foldlMInit workloads (([] : List String)) fun acc wl =>
      foldlMInit wl.containers (acc) fun acc2 c => do
        let s ← insightsSection wl c
        pure (acc2 ++ [s])
    if sections.isEmpty then pure "No workloads found in the platform."
    else pure (joinSep "\n" sections)

end K8sObs

namespace K8sObs

/-- Keyword-splat a tool's JSON input against a Python function signature:
an unexpected key raises `TypeError` out of the dispatcher. -/
def checkKwargs (fname : String) (allowed : List String) (inp : Json) :
    Except String (List (String × Json)) :=
  match inp with
  | .obj entries =>
    match entries.find? (fun e => !allowed.contains e.1) with
    | some bad =>
      .error ("TypeError: " ++ fname ++ "() got an unexpected keyword argument \x27" ++
        bad.1 ++ "\x27")
    | none => .ok entries
  | _ => .error ("TypeError: " ++ fname ++ "() argument after ** must be a mapping")

/-- Read an optional string keyword argument (a non-string value would
fail later inside the tool body; the model rejects it at the same call). -/
def strKwargD (fname : String) (entries : List (String × Json)) (k : String) (d : String) :
    Except String String :=
  match alistGet? entries k with
  | some (.str s) => .ok s
  | some _ => .error ("TypeError: " ++ fname ++ "() argument \x27" ++ k ++ "\x27 is not a string")
  | none => .ok d

/-- Read a required string keyword argument. -/
def strKwarg (fname : String) (entries : List (String × Json)) (k : String) :
    Except String String :=
  match alistGet? entries k with
  | some (.str s) => .ok s
  | some _ => .error ("TypeError: " ++ fname ++ "() argument \x27" ++ k ++ "\x27 is not a string")
  | none =>
    .error ("TypeError: " ++ fname ++ "() missing 1 required positional argument: \x27" ++
      k ++ "\x27")

/-- `registry.execute_tool`: the analyze-tool dispatcher.
`get_platform_summary` and `check_health_gaps` are invoked without
`**tool_input`, so their input dict is ignored; every other tool
keyword-splats it.  The dispatcher performs no exception handling of its
own, so any error raised by the `**`-splat or inside a tool
implementation propagates to the caller. -/
def execute_tool (platform : Platform) (tool_name : String) (tool_input : Json) :
    Except String String :=
  if tool_name = "list_resources" then do
    let kv ← checkKwargs "_list_resources" ["kind", "namespace"] tool_input
    let kind ← strKwargD "_list_resources" kv "kind" ""
    let ns ← strKwargD "_list_resources" kv "namespace" ""
    pure (list_resources platform kind ns)
  else if tool_name = "get_resource_detail" then do
    let kv ← checkKwargs "_get_resource_detail" ["qualified_name"] tool_input
    let qn ← strKwarg "_get_resource_detail" kv "qualified_name"
    pure (get_resource_detail platform qn)
  else if tool_name = "get_relationships" then do
    let kv ← checkKwargs "_get_relationships" ["resource"] tool_input
    let resource ← strKwargD "_get_relationships" kv "resource" ""
    pure (get_relationships platform resource)
  else if tool_name = "get_platform_summary" then
    pure (get_platform_summary platform)
  else if tool_name = "check_health_gaps" then
    pure (check_health_gaps platform)
  else if tool_name = "get_workload_insights" then do
    let kv ← checkKwargs "_get_workload_insights" ["qualified_name"] tool_input
    let qn ← strKwargD "_get_workload_insights" kv "qualified_name" ""
    get_workload_insights platform qn
  else if tool_name = "get_iac_resources" then do
    let kv ← checkKwargs "_get_iac_resources" ["source"] tool_input
    let source ← strKwargD "_get_iac_resources" kv "source" ""
    pure (get_iac_resources platform source)
  else if tool_name = "get_aws_resources" then do
    let kv ← checkKwargs "_get_aws_resources" ["service"] tool_input
    let service ← strKwargD "_get_aws_resources" kv "service" ""
    pure (get_aws_resources platform service)
  else if tool_name = "generate_observability_plan" then
    pure (Json.dumpsIndent2 tool_input)
  else
    pure ("Unknown tool: " ++ tool_name)

end K8sObs

namespace K8sObs

/-! ## `cluster.py` — kubectl client with guarded writes -/

/-- `cluster.CommandResult`. -/
structure CommandResult where
  command : String
  returncode : Int
  stdout : String
  stderr : String
  deriving Repr, DecidableEq

/-- `CommandResult.ok`. -/
def CommandResult.ok (r : CommandResult) : Bool :=
  r.returncode = 0

/-- Python `s[:n]`. -/
def strTake (s : String) (n : Nat) : String :=
  String.mk (s.toList.take n)

/-- `CommandResult.summary`. -/
def CommandResult.summary (r : CommandResult) : String :=
  if r.ok then (if r.stdout.length > 2000 then strTake r.stdout 2000 else r.stdout)
  else "ERROR (rc=" ++ toString r.returncode ++ "): " ++ strTake r.stderr 1000

/-- `cluster.ClusterClient` (dataclass defaults: `allow_writes = False`). -/
structure ClusterClient where
  kubeconfig : String := ""
  context : String := ""
  allow_writes : Bool := false
  deriving Repr, DecidableEq

/-- `ClusterClient.__post_init__`: the `_base_cmd` prefix. -/
def ClusterClient.baseCmd (c : ClusterClient) : List String :=
  ["kubectl"] ++
    (if c.kubeconfig ≠ "" then ["--kubeconfig", c.kubeconfig] else []) ++
    (if c.context ≠ "" then ["--context", c.context] else [])

/-! The read operations, modelled by the argument lists they hand to
`_run` (which prepends `_base_cmd` and shells out). -/

def ClusterClient.getCurrentContextArgs : List String :=
  ["config", "current-context"]

def ClusterClient.clusterInfoArgs : List String :=
  ["cluster-info"]

def ClusterClient.getNamespacesArgs : List String :=
  ["get", "namespaces", "-o", "json"]

def ClusterClient.getResourcesArgs (kind : String) («namespace» : String)
    (label_selector : String) : List String :=
  ["get", kind, "-o", "json"] ++
    (if «namespace» ≠ "" then ["-n", «namespace»] else ["--all-namespaces"]) ++
    (if label_selector ≠ "" then ["-l", label_selector] else [])

def ClusterClient.describeResourceArgs (kind name : String)
    («namespace» : String) : List String :=
  ["describe", kind, name, "-n", «namespace»]

def ClusterClient.getPodLogsArgs (pod_name : String) («namespace» : String)
    (container : String) (tail_lines : Nat) : List String :=
  ["logs", pod_name, "-n", «namespace», "--tail=" ++ toString tail_lines] ++
    (if container ≠ "" then ["-c", container] else [])

def ClusterClient.getEndpointsArgs (service_name : String)
    («namespace» : String) : List String :=
  ["get", "endpoints", service_name, "-n", «namespace», "-o", "json"]

def ClusterClient.getEventsArgs («namespace» : String)
    (field_selector : String) : List String :=
  ["get", "events", "-n", «namespace», "-o", "json", "--sort-by=.lastTimestamp"] ++
    (if field_selector ≠ "" then ["--field-selector=" ++ field_selector] else [])

def ClusterClient.topPodsArgs («namespace» : String) : List String :=
  ["top", "pods"] ++ (if «namespace» ≠ "" then ["-n", «namespace»] else ["--all-namespaces"])

def ClusterClient.checkConnectivityArgs : List String :=
  ["version", "--short"]

/-- The PermissionError message raised by `ClusterClient._require_writes`
(note the double space: two adjacent string literals in the source). -/
def writesDeniedMsg : String :=
  "Write operations are disabled.  Pass --allow-writes to enable applying changes to the cluster."

/-- `ClusterClient.apply_manifest`: raises `PermissionError` before any
subprocess invocation unless `allow_writes`; otherwise runs
`kubectl apply -f - -n <ns>` with the manifest on stdin.  The result pairs
the Python outcome with the list of kubectl invocations performed, and the
subprocess behaviour is abstracted by `runner`. -/
def ClusterClient.apply_manifest (c : ClusterClient) (manifest_yaml : String)
    («namespace» : String)
    (runner : List String → String → CommandResult) :
    Except String CommandResult × List (List String) :=
  if !c.allow_writes then (.error writesDeniedMsg, [])
  else
    let cmd := c.baseCmd ++ ["apply", "-f", "-", "-n", «namespace»]
    (.ok (runner cmd manifest_yaml), [cmd])

/-- `ClusterClient.delete_resource`: also guarded by `_require_writes`. -/
def ClusterClient.delete_resource (c : ClusterClient) (kind name : String)
    («namespace» : String)
    (runner : List String → String → CommandResult) :
    Except String CommandResult × List (List String) :=
  if !c.allow_writes then (.error writesDeniedMsg, [])
  else
    let cmd := c.baseCmd ++ ["delete", kind, name, "-n", «namespace»]
    (.ok (runner cmd ""), [cmd])

/-! ## `tools/live.py` — live-tool executor -/

/-- A live tool handler: the Python outcome (string result or raised
exception) together with the kubectl invocations performed. -/
abbrev LiveHandler := Json → Except String String × List (List String)

/-- `live._tool_apply_kubernetes_manifest`: reads the input, calls the
guarded `apply_manifest`, and converts a `PermissionError` into its
message as an ordinary string result. -/
def tool_apply_kubernetes_manifest (cluster : ClusterClient)
    (runner : List String → String → CommandResult) : LiveHandler := fun inp =>
  match inp with
  | .obj entries =>
    (match alistGet? entries "manifest_yaml" with
     | some (.str manifest_yaml) =>
       let ns := inp.getStrD "namespace" "default"
       (match cluster.apply_manifest manifest_yaml ns runner with
        | (.error e, effs) => (.ok e, effs)
        | (.ok res, effs) => (.ok res.summary, effs))
     | some _ => (.error "TypeError: manifest must be a string", [])
     | none => (.error "KeyError: \x27manifest_yaml\x27", []))
  | _ => (.error "TypeError: tool input must be a mapping", [])

/-- `LiveToolExecutor.execute`: dispatch by `getattr(self, f"_tool_{name}")`
(modelled by the `handlers` lookup); an unknown name returns an error
*string*, and any exception from the handler is caught and rendered as
`Tool \x27<name>\x27 error: <message>` — execute itself never raises. -/
def liveExecute (handlers : String → Option LiveHandler) (tool_name : String)
    (tool_input : Json) : String × List (List String) :=
  match handlers tool_name with
  | none => ("Unknown live tool: " ++ tool_name, [])
  | some handler =>
    match handler tool_input with
    | (.ok s, effs) => (s, effs)
    | (.error e, effs) => ("Tool \x27" ++ tool_name ++ "\x27 error: " ++ e, effs)

end K8sObs

namespace K8sObs

/-! ## `core.py` — the analyze agent driver -/

/-- One content block of an LLM response. -/
inductive ContentBlock where
  | text (s : String)
  | toolUse (id name : String) (input : Json)
  deriving Repr

/-- An LLM response: content blocks plus `stop_reason`. -/
structure LLMResponse where
  content : List ContentBlock
  stop_reason : String
  deriving Repr

/-- The outcome of one `client.messages.create` call. -/
inductive LLMAttempt where
  | ok (r : LLMResponse)
  | rateLimit
  | connError
  | statusError (msg : String)
  deriving Repr

/-- pydantic required string field. -/
def pydStrReq (entries : List (String × Json)) (field : String) : Except String String :=
  match alistGet? entries field with
  | some (.str s) => .ok s
  | some _ => .error ("ValidationError: " ++ field ++ " must be a string")
  | none => .error ("ValidationError: " ++ field ++ " field required")

/-- pydantic optional string field with default. -/
def pydStrOpt (entries : List (String × Json)) (field d : String) : Except String String :=
  match alistGet? entries field with
  | some (.str s) => .ok s
  | some _ => .error ("ValidationError: " ++ field ++ " must be a string")
  | none => .ok d

/-- pydantic required int field. -/
def pydIntReq (entries : List (String × Json)) (field : String) : Except String Int :=
  match alistGet? entries field with
  | some (.num n) => .ok n
  | some _ => .error ("ValidationError: " ++ field ++ " must be an integer")
  | none => .error ("ValidationError: " ++ field ++ " field required")

/-- pydantic optional `list[str]` field. -/
def pydStrListOpt (entries : List (String × Json)) (field : String) :
    Except String (List String) :=
  match alistGet? entries field with
  | some (.arr items) => items.mapM fun item =>
      match item with
      | .str s => .ok s
      | _ => (.error ("ValidationError: " ++ field ++ " items must be strings") :
          Except String String)
  | some _ => .error ("ValidationError: " ++ field ++ " must be a list")
  | none => .ok []

/-- `raw.get(key, [])` followed by iteration: a present non-list raises. -/
def getIterD (raw : Json) (key : String) : Except String (List Json) :=
  match raw with
  | .obj entries =>
    (match alistGet? entries key with
     | some (.arr items) => .ok items
     | some _ => .error ("TypeError: " ++ key ++ " is not iterable")
     | none => .ok [])
  | _ => .ok []

/-- Keyword-construct a `MetricRecommendation` (`MetricRecommendation(**m)`). -/
def parseMetricRecommendation (j : Json) : Except String MetricRecommendation := do
  match j with
  | .obj entries =>
    let metric_name ← pydStrReq entries "metric_name"
    let description ← pydStrOpt entries "description" ""
    let query ← pydStrReq entries "query"
    let resource ← pydStrReq entries "resource"
    pure { metric_name, description, query, resource }
  | _ => .error "TypeError: argument after ** must be a mapping"

/-- `AlertRule(**a)`. -/
def parseAlertRule (j : Json) : Except String AlertRule := do
  match j with
  | .obj entries =>
    let alert_name ← pydStrReq entries "alert_name"
    let severity ← pydStrOpt entries "severity" "warning"
    let expr ← pydStrReq entries "expr"
    let for_duration ← pydStrOpt entries "for_duration" "5m"
    let summary ← pydStrOpt entries "summary" ""
    let description ← pydStrOpt entries "description" ""
    let resource ← pydStrOpt entries "resource" ""
    let nodata_state ← pydStrOpt entries "nodata_state" "ok"
    pure { alert_name, severity, expr, for_duration, summary, description, resource,
           nodata_state }
  | _ => .error "TypeError: argument after ** must be a mapping"

/-- `DashboardPanel(**p)`. -/
def parseDashboardPanel (j : Json) : Except String DashboardPanel := do
  match j with
  | .obj entries =>
    let title ← pydStrReq entries "title"
    let panel_type ← pydStrOpt entries "panel_type" "graph"
    let queries ← pydStrListOpt entries "queries"
    let description ← pydStrOpt entries "description" ""
    let resource ← pydStrOpt entries "resource" ""
    pure { title, panel_type, queries, description, resource }
  | _ => .error "TypeError: argument after ** must be a mapping"

/-- The `dashboards` loop body: `d["title"]` raises `KeyError` when
missing. -/
def parseDashboardSpec (j : Json) : Except String DashboardSpec := do
  match j with
  | .obj entries =>
    let panelsRaw ← getIterD j "panels"
    let panels ← panelsRaw.mapM parseDashboardPanel
    let title ←
      match alistGet? entries "title" with
      | some (.str s) => .ok s
      | some _ => .error "ValidationError: title must be a string"
      | none => (.error "KeyError: \x27title\x27" : Except String String)
    let description ← pydStrOpt entries "description" ""
    let tags ← pydStrListOpt entries "tags"
    pure { title, description, panels, tags }
  | _ => .error "TypeError: dashboard entry must be a mapping"

/-- `GrafanaDashboardRecommendation(**dr)`. -/
def parseDashboardRecommendation (j : Json) :
    Except String GrafanaDashboardRecommendation := do
  match j with
  | .obj entries =>
    let dashboard_id ← pydIntReq entries "dashboard_id"
    let title ← pydStrReq entries "title"
    let description ← pydStrOpt entries "description" ""
    let url ← pydStrOpt entries "url" ""
    let resource ← pydStrOpt entries "resource" ""
    let archetype ← pydStrOpt entries "archetype" ""
    pure { dashboard_id, title, description, url, resource, archetype }
  | _ => .error "TypeError: argument after ** must be a mapping"

/-- `core._parse_observability_plan`. -/
def parse_observability_plan (raw : Json) : Except String ObservabilityPlan := do
  let metricsRaw ← getIterD raw "metrics"
  let metrics ← metricsRaw.mapM parseMetricRecommendation
  let alertsRaw ← getIterD raw "alerts"
  let alerts ← alertsRaw.mapM parseAlertRule
  let dashboardsRaw ← getIterD raw "dashboards"
  let dashboards ← dashboardsRaw.mapM parseDashboardSpec
  let recsRaw ← getIterD raw "dashboard_recommendations"
  let dashboard_recommendations ← recsRaw.mapM parseDashboardRecommendation
  let platform_summary :=
    match raw with
    | .obj entries => (match alistGet? entries "platform_summary" with
      | some (.str s) => s
      | _ => "")
    | _ => ""
  let recommendations ←
    match raw with
    | .obj entries => pydStrListOpt entries "recommendations"
    | _ => pure []
  pure { platform_summary, metrics, alerts, dashboards, dashboard_recommendations,
         recommendations }

/-- The degraded plan returned after a final connection error. -/
def connErrorPlan : ObservabilityPlan :=
  { platform_summary := "Agent could not reach the Anthropic API."
    recommendations := ["Run \x27k8s-obs scan\x27 for offline structural analysis."] }

/-- The degraded plan returned on a permanent API status error. -/
def statusErrorPlan (msg : String) : ObservabilityPlan :=
  { platform_summary := "Anthropic API error: " ++ msg
    recommendations := ["Check your API key and account status, then retry."] }

/-- The degraded plan returned when all retries were rate-limited. -/
def exhaustedPlan : ObservabilityPlan :=
  { platform_summary := "Agent exhausted retries contacting the Anthropic API."
    recommendations := ["Run \x27k8s-obs scan\x27 for offline structural analysis."] }

/-- The plan used when the agent ends without emitting the terminal tool. -/
def unstructuredPlan : ObservabilityPlan :=
  { platform_summary := "Agent did not produce a structured plan."
    recommendations := ["Review the agent output above for recommendations."] }

/-- The plan used when the turn budget is exhausted. -/
def turnLimitPlan : ObservabilityPlan :=
  { platform_summary := "Agent did not complete within the turn limit." }

/-- Outcome of the per-turn retry loop. -/
inductive TurnOutcome where
  | response (r : LLMResponse)
  | degraded (p : ObservabilityPlan)

/-- The `for attempt in range(1, MAX_RETRIES + 1)` retry loop of one turn:
rate limits and connection errors retry (sleeping), a status error
terminates with a degraded plan at once, a third rate limit exhausts the
loop, and a third connection error gives up with the connection-degraded
plan.  Returns the number of `messages.create` attempts made. -/
def tryCall (f : Nat → LLMAttempt) : Nat × TurnOutcome :=
  match f 1 with
  | .ok r => (1, .response r)
  | .statusError m => (1, .degraded (statusErrorPlan m))
  | .rateLimit | .connError =>
    match f 2 with
    | .ok r => (2, .response r)
    | .statusError m => (2, .degraded (statusErrorPlan m))
    | .rateLimit | .connError =>
      match f 3 with
      | .ok r => (3, .response r)
      | .statusError m => (3, .degraded (statusErrorPlan m))
      | .rateLimit => (3, .degraded exhaustedPlan)
      | .connError => (3, .degraded connErrorPlan)

/-- Process one response's content blocks: execute each `tool_use` via
`execute_tool` (whose exceptions propagate out of `run_agent`), collect
keyed tool results, and parse the terminal tool's input when it appears
(a parse failure is caught and leaves `plan` unchanged). -/
def processBlocks (platform : Platform) (blocks : List ContentBlock)
    (plan : Option ObservabilityPlan) :
    Except String (List (String × String) × Option ObservabilityPlan) :=
  foldlMInit blocks ((([] : List (String × String)), plan)) fun (results, pl) block =>
    match block with
    | .text _ => pure (results, pl)
    | .toolUse id name input => do
      let resultStr ← execute_tool platform name input
      let pl' :=
        if name = "generate_observability_plan" then
          match parse_observability_plan input with
          | .ok p => some p
          | .error _ => pl
        else pl
      pure (results ++ [(id, resultStr)], pl')

/-- What `run_agent` produced, plus the LLM call/attempt counts. -/
structure RunResult where
  plan : ObservabilityPlan
  llmCalls : Nat
  attempts : Nat
  deriving Repr, DecidableEq

/-- The turn loop of `core.run_agent`, with the environment `env` giving
the outcome of attempt `a` of turn `t` as `env t a` (this quantifies over
every possible sequence of LLM responses). -/
def runAgentLoop (platform : Platform) (env : Nat → Nat → LLMAttempt) :
    Nat → Nat → Option ObservabilityPlan → Nat → Nat → Except String RunResult
  | 0, _, plan, calls, attempts =>
    .ok { plan := plan.getD turnLimitPlan, llmCalls := calls, attempts := attempts }
  | turnsLeft + 1, turnIdx, plan, calls, attempts =>
    let (used, outcome) := tryCall (env turnIdx)
    match outcome with
    | .degraded p => .ok { plan := p, llmCalls := calls, attempts := attempts + used }
    | .response r => do
      let (toolResults, plan') ← processBlocks platform r.content plan
      let calls' := calls + 1
      let attempts' := attempts + used
      match plan' with
      | some p =>
        if r.stop_reason = "end_turn" then
          .ok { plan := p, llmCalls := calls', attempts := attempts' }
        else runAgentLoop platform env turnsLeft (turnIdx + 1) plan' calls' attempts'
      | none =>
        if r.stop_reason = "end_turn" ∧ toolResults.isEmpty then
          .ok { plan := unstructuredPlan, llmCalls := calls', attempts := attempts' }
        else runAgentLoop platform env turnsLeft (turnIdx + 1) plan' calls' attempts'

/-- `core.run_agent` (LLM interaction abstracted into `env`). -/
def run_agent (platform : Platform) (max_agent_turns : Nat)
    (env : Nat → Nat → LLMAttempt) : Except String RunResult :=
  runAgentLoop platform env max_agent_turns 1 none 0 0

end K8sObs

namespace K8sObs

/-! ## `history.py` — SQLite-backed validation history -/

/-- pydantic optional bool field. -/
def pydBoolOpt (entries : List (String × Json)) (field : String) (d : Bool) :
    Except String Bool :=
  match alistGet? entries field with
  | some (.bool b) => .ok b
  | some _ => .error ("ValidationError: " ++ field ++ " must be a boolean")
  | none => .ok d

/-- pydantic optional int field. -/
def pydIntOpt (entries : List (String × Json)) (field : String) (d : Int) :
    Except String Int :=
  match alistGet? entries field with
  | some (.num n) => .ok n
  | some _ => .error ("ValidationError: " ++ field ++ " must be an integer")
  | none => .ok d

/-- `ValidationCheck.model_dump()`. -/
def ValidationCheck.modelDump (c : ValidationCheck) : Json :=
  .obj [("name", .str c.name), ("status", .str c.status), ("message", .str c.message),
        ("fix_applied", .bool c.fix_applied), ("fix_description", .str c.fix_description),
        ("fix_manifest", .str c.fix_manifest)]

/-- `ValidationCheck(**c)`. -/
def parseValidationCheck (j : Json) : Except String ValidationCheck := do
  match j with
  | .obj entries =>
    let name ← pydStrReq entries "name"
    let status ← pydStrReq entries "status"
    let message ← pydStrOpt entries "message" ""
    let fix_applied ← pydBoolOpt entries "fix_applied" false
    let fix_description ← pydStrOpt entries "fix_description" ""
    let fix_manifest ← pydStrOpt entries "fix_manifest" ""
    pure { name, status, message, fix_applied, fix_description, fix_manifest }
  | _ => .error "TypeError: argument after ** must be a mapping"

/-- `DashboardImportResult.model_dump()`. -/
def DashboardImportResult.modelDump (d : DashboardImportResult) : Json :=
  .obj [("dashboard_id", .num d.dashboard_id), ("title", .str d.title),
        ("url", .str d.url), ("status", .str d.status)]

/-- `DashboardImportResult(**d)`. -/
def parseDashboardImportResult (j : Json) : Except String DashboardImportResult := do
  match j with
  | .obj entries =>
    let dashboard_id ← pydIntReq entries "dashboard_id"
    let title ← pydStrOpt entries "title" ""
    let url ← pydStrOpt entries "url" ""
    let status ← pydStrOpt entries "status" ""
    pure { dashboard_id, title, url, status }
  | _ => .error "TypeError: argument after ** must be a mapping"

/-- `RemediationStep.model_dump()`. -/
def RemediationStep.modelDump (s : RemediationStep) : Json :=
  .obj [("title", .str s.title), ("description", .str s.description),
        ("command", .str s.command), ("manifest", .str s.manifest),
        ("dashboard_id", .num s.dashboard_id), ("dashboard_title", .str s.dashboard_title),
        ("priority", .str s.priority)]

/-- `RemediationStep(**s)`. -/
def parseRemediationStep (j : Json) : Except String RemediationStep := do
  match j with
  | .obj entries =>
    let title ← pydStrReq entries "title"
    let description ← pydStrOpt entries "description" ""
    let command ← pydStrOpt entries "command" ""
    let manifest ← pydStrOpt entries "manifest" ""
    let dashboard_id ← pydIntOpt entries "dashboard_id" 0
    let dashboard_title ← pydStrOpt entries "dashboard_title" ""
    let priority ← pydStrOpt entries "priority" "medium"
    pure { title, description, command, manifest, dashboard_id, dashboard_title, priority }
  | _ => .error "TypeError: argument after ** must be a mapping"

/-- One row of the `validation_runs` table.  `run_at` holds the
`datetime.now(timezone.utc).isoformat()` timestamp; fixed-format ISO-8601
UTC strings compare lexicographically exactly as instants, so the model
uses `Nat`.  The `*_json` columns hold the `json.dumps` payloads at the
JSON-value level (`loads ∘ dumps = id`). -/
structure HistoryRow where
  id : Nat
  cluster_context : String
  run_at : Nat
  cluster_summary : String
  checks_json : Json
  dashboards_json : Json
  recommendations_json : Json
  remediation_json : Json
  dashboards_to_import_json : Json
  plan_hash : String

/-- The database state: rows plus the AUTOINCREMENT counter. -/
structure ValidationHistory where
  rows : List HistoryRow := []
  nextId : Nat := 1

/-- `ValidationHistory.save_run` (the wall clock is passed explicitly as
`now`).  Returns the new row id (`lastrowid`) and the new state. -/
def ValidationHistory.save_run (h : ValidationHistory) (cluster_context : String)
    (report : ValidationReport) (now : Nat) (plan_hash : String) :
    Nat × ValidationHistory :=
  let row : HistoryRow :=
    { id := h.nextId
      cluster_context := cluster_context
      run_at := now
      cluster_summary := report.cluster_summary
      checks_json := .arr (report.checks.map ValidationCheck.modelDump)
      dashboards_json := .arr (report.dashboards_imported.map DashboardImportResult.modelDump)
      recommendations_json := .arr (report.recommendations.map Json.str)
      remediation_json := .arr (report.remediation_steps.map RemediationStep.modelDump)
      dashboards_to_import_json :=
        .arr (report.dashboards_to_import.map DashboardImportResult.modelDump)
      plan_hash := plan_hash }
  (h.nextId, { rows := h.rows ++ [row], nextId := h.nextId + 1 })

/-- The `ORDER BY run_at DESC` comparison. -/
def runAtGe (a b : HistoryRow) : Prop :=
  a.run_at ≥ b.run_at

instance : DecidableRel runAtGe := fun a b => Nat.decLe b.run_at a.run_at

instance : IsTotal HistoryRow runAtGe :=
  ⟨fun a b => (Nat.le_total b.run_at a.run_at).imp id id⟩

instance : IsTrans HistoryRow runAtGe :=
  ⟨fun _ _ _ h1 h2 => Nat.le_trans h2 h1⟩

/-- `ORDER BY run_at DESC`. -/
def sortRunAtDesc (rows : List HistoryRow) : List HistoryRow :=
  rows.insertionSort runAtGe

/-- `ValidationHistory.last_run`: most recent row for the context. -/
def ValidationHistory.last_run (h : ValidationHistory) (cluster_context : String) :
    Option HistoryRow :=
  (sortRunAtDesc (h.rows.filter fun r => r.cluster_context = cluster_context)).head?

/-- `json.loads` of a stored list column followed by iteration. -/
def loadsArr (j : Json) : Except String (List Json) :=
  match j with
  | .arr items => .ok items
  | _ => .error "TypeError: stored JSON is not a list"

/-- `ValidationHistory._dict_to_report`. -/
def dict_to_report (row : HistoryRow) : Except String ValidationReport := do
  let checksRaw ← loadsArr row.checks_json
  let checks ← checksRaw.mapM parseValidationCheck
  let dashboardsRaw ← loadsArr row.dashboards_json
  let dashboards ← dashboardsRaw.mapM parseDashboardImportResult
  let remediationRaw ← loadsArr row.remediation_json
  let remediation ← remediationRaw.mapM parseRemediationStep
  let dtiRaw ← loadsArr row.dashboards_to_import_json
  let dashboards_to_import ← dtiRaw.mapM parseDashboardImportResult
  let recommendationsRaw ← loadsArr row.recommendations_json
  let recommendations ← recommendationsRaw.mapM fun item =>
    match item with
    | .str s => .ok s
    | _ => (.error "ValidationError: recommendations items must be strings" :
        Except String String)
  pure { cluster_summary := row.cluster_summary
         checks := checks
         dashboards_imported := dashboards
         recommendations := recommendations
         remediation_steps := remediation
         dashboards_to_import := dashboards_to_import }

/-- `ValidationHistory.last_report`. -/
def ValidationHistory.last_report (h : ValidationHistory) (cluster_context : String) :
    Except String (Option ValidationReport) :=
  match h.last_run cluster_context with
  | none => .ok none
  | some row => do
    let report ← dict_to_report row
    pure (some report)

/-- `ValidationHistory.prune`: delete this context's rows that are not
among its `keep` most recent (by `run_at` descending); rows of other
contexts are untouched by the `WHERE cluster_context = ?` clause. -/
def ValidationHistory.prune (h : ValidationHistory) (cluster_context : String)
    (keep : Nat) : Nat × ValidationHistory :=
  let keepIds :=
    ((sortRunAtDesc (h.rows.filter fun r => r.cluster_context = cluster_context)).take
      keep).map fun r => r.id
  let remaining := h.rows.filter fun r =>
    !(r.cluster_context = cluster_context && !keepIds.contains r.id)
  (h.rows.length - remaining.length, { rows := remaining, nextId := h.nextId })

end K8sObs

namespace K8sObs

/-! ## Concrete scenario fixtures used by the claim theorems -/

/-- Scenario S4's container: `postgres:15` with its scanner-attached
classification (populated the way `scanner._parse_container` copies the
`classify_image` result into the `ContainerSpec`). -/
def s4Container : ContainerSpec :=
  let cls := classify_image "postgres:15" [5432] ["POSTGRES_DB"] []
  { name := "postgres"
    image := "postgres:15"
    ports := [5432]
    env_vars := ["POSTGRES_DB"]
    archetype := cls.archetype
    archetype_display := (match cls.profile with | some p => p.display_name | none => "")
    archetype_confidence := cls.confidence
    archetype_score := cls.score
    archetype_match_source := cls.match_source
    archetype_evidence := cls.evidence }

/-- Scenario S4's workload: single-replica Deployment, empty telemetry. -/
def s4Workload : K8sResource :=
  { kind := "Deployment", name := "db", source_file := "db.yaml",
    replicas := some 1, containers := [s4Container], telemetry := [] }

/-- Scenario S4's platform. -/
def s4Platform : Platform :=
  { resources := [s4Workload], namespaces := ["default"], manifest_files := ["db.yaml"] }

/-- The tool names `registry.execute_tool` dispatches on. -/
def analyzeToolNames : List String :=
  ["list_resources", "get_resource_detail", "get_relationships", "get_platform_summary",
   "check_health_gaps", "get_workload_insights", "get_iac_resources", "get_aws_resources",
   "generate_observability_plan"]

/-- Scenario S6: the terminal tool's input — a valid plan. -/
def s6PlanInput : Json :=
  .obj [("platform_summary", .str "Minimal platform"),
        ("metrics", .arr []),
        ("alerts", .arr [.obj [("alert_name", .str "PodDown"), ("expr", .str "up == 0")]]),
        ("dashboards", .arr []),
        ("dashboard_recommendations", .arr []),
        ("recommendations", .arr [.str "review"])]

/-- The plan `_parse_observability_plan` extracts from `s6PlanInput`. -/
def s6Plan : ObservabilityPlan :=
  { platform_summary := "Minimal platform"
    alerts := [{ alert_name := "PodDown", expr := "up == 0" }]
    recommendations := ["review"] }

/-- Scenario S6's mock transcript: three tool-use turns, the third emits
the terminal tool with `stop_reason = end_turn`; any later turn would
answer, so a fourth LLM call is observable in the call count. -/
def s6Env : Nat → Nat → LLMAttempt := fun turn _attempt =>
  if turn = 1 then
    .ok { content := [.toolUse "toolu_01" "get_platform_summary" (.obj [])],
          stop_reason := "tool_use" }
  else if turn = 2 then
    .ok { content := [.toolUse "toolu_02" "get_workload_insights" (.obj [])],
          stop_reason := "tool_use" }
  else if turn = 3 then
    .ok { content := [.toolUse "toolu_03" "generate_observability_plan" s6PlanInput],
          stop_reason := "end_turn" }
  else
    .ok { content := [.text "turn four — must not be requested"],
          stop_reason := "end_turn" }

/-- Scenario S6 runs over an empty platform (the analyze tools all answer
normally there). -/
def s6Platform : Platform := {}

/-- The C5 counterexample document: a Secret whose `stringData` value
`"cret"` is a substring of retained non-secret text (the kind
`"Secret"`). -/
def c5SecretDoc : Json :=
  .obj [("apiVersion", .str "v1"),
        ("kind", .str "Secret"),
        ("metadata", .obj [("name", .str "db-credentials"), ("namespace", .str "default")]),
        ("type", .str "Opaque"),
        ("stringData", .obj [("token", .str "cret")])]

/-- The C7 counterexample file listing: one YAML file of exactly
1 MiB = 1,048,576 bytes. -/
def c7Files : List FileEntry := [{ path := "a.yaml", size := 1048576 }]

/-- The C9 counterexample pod annotations: scraping enabled, with a
named (non-numeric) `prometheus.io/port`. -/
def c9PodAnnotations : List (String × String) :=
  [("prometheus.io/scrape", "true"), ("prometheus.io/port", "web")]

/-- A trivial subprocess runner used by the C6 witness. -/
def dummyRunner : List String → String → CommandResult :=
  fun cmd _ => { command := joinSep " " cmd, returncode := 0, stdout := "", stderr := "" }

/-- A small `ValidationReport` exercising every field (used by the C8 and
C10 witnesses). -/
def sampleReport : ValidationReport :=
  { cluster_summary := "kind-kind / Prometheus up"
    checks := [{ name := "scrape-targets", status := "pass", message := "All healthy" },
               { name := "node-exporter-metrics", status := "fail",
                 message := "node_cpu_seconds_total not found",
                 fix_manifest := "apiVersion: v1" }]
    dashboards_imported := [{ dashboard_id := 1860, title := "Node Exporter",
                              status := "imported" }]
    recommendations := ["Deploy node_exporter DaemonSet"]
    remediation_steps := [{ title := "Deploy node_exporter", priority := "high" }]
    dashboards_to_import := [{ dashboard_id := 315, title := "K8s Cluster",
                               status := "recommended" }] }

/-- A concrete history with two contexts (C10 witness): `ctx` has three
runs at times 1 < 2 < 3, `other` has one run. -/
def sampleHistory : ValidationHistory :=
  let (_, h1) := ValidationHistory.save_run {} "ctx" sampleReport 1 ""
  let (_, h2) := h1.save_run "other" sampleReport 2 ""
  let (_, h3) := h2.save_run "ctx" sampleReport 3 ""
  let (_, h4) := h3.save_run "ctx" sampleReport 4 ""
  h4

/-- The most recent `ctx` row of `sampleHistory` (the one `save_run`
appended last), spelled out for the prune theorem's closed instance. -/
def c10Row : HistoryRow :=
  { id := 4, cluster_context := "ctx", run_at := 4,
    cluster_summary := sampleReport.cluster_summary,
    checks_json := .arr (sampleReport.checks.map ValidationCheck.modelDump),
    dashboards_json :=
      .arr (sampleReport.dashboards_imported.map DashboardImportResult.modelDump),
    recommendations_json := .arr (sampleReport.recommendations.map Json.str),
    remediation_json := .arr (sampleReport.remediation_steps.map RemediationStep.modelDump),
    dashboards_to_import_json :=
      .arr (sampleReport.dashboards_to_import.map DashboardImportResult.modelDump),
    plan_hash := "" }

end K8sObs

namespace K8sObs

/-! # Theorems settling the claims -/

/-! ## Shared helper lemmas -/

/-- Deduplicating env hits per profile does not change the env step:
multiple env hits for the same profile never stack. -/
theorem envStepGo_dedup (envs : List String) :
    ∀ (cands : Candidates) (seen : List String),
      envStepGo (dedupEnvHits envs seen) cands seen = envStepGo envs cands seen := by
  induction envs with
  | nil => intro cands seen; rfl
  | cons env rest ih =>
    intro cands seen
    cases hfind : envHints.find? (fun h => h.1 = env) with
    | none =>
      simp only [dedupEnvHits, envStepGo, hfind]
      exact ih _ _
    | some hit =>
      obtain ⟨k, arch, pk⟩ := hit
      cases hseen : seen.contains pk with
      | true =>
        simp only [dedupEnvHits, envStepGo, hfind, hseen, if_true]
        exact ih _ _
      | false =>
        cases hprof : getProfile pk with
        | none =>
          simp only [dedupEnvHits, envStepGo, hfind, hseen, hprof, if_false,
            Bool.false_eq_true]
          exact ih _ _
        | some profile =>
          simp only [dedupEnvHits, envStepGo, hfind, hseen, hprof, if_false,
            Bool.false_eq_true]
          exact ih _ _

/-- The classification score is capped at 1.00. -/
theorem classify_image_score_le (image : String) (ports : List Nat)
    (env_vars : List String) (labels : List (String × String)) :
    (classify_image image ports env_vars labels).score ≤ 100 := by
  unfold classify_image
  cases hbest : bestCandidate
      (labelStep labels (envStep env_vars (portStep ports (imageStep image [])))) with
  | none => simp only [hbest]; decide
  | some e =>
    obtain ⟨k, s, p, ev⟩ := e
    simp only [hbest]
    exact Nat.min_le_right s 100

/-! ## C3 — `classify_image` evidence accumulation -/

/-- C3: `classify_image` accumulates weighted evidence (image 0.70, each
hinted port 0.25, env 0.15 at most once per profile, label 0.20), caps the
winning score at 1.0, and on the S2 input
`("postgres:15", [5432], ["POSTGRES_DB","PGDATA"], {})` returns score
1.00, bucket `high`, and evidence `image:…`, `port:5432`, and exactly one
`env:` entry. -/
theorem c3_classify_image_accumulation :
    (∀ (image : String) (ports : List Nat) (env_vars : List String)
        (labels : List (String × String)),
        (classify_image image ports env_vars labels).score ≤ 100) ∧
    (∀ (image : String) (ports : List Nat) (env_vars : List String)
        (labels : List (String × String)),
        classify_image image ports env_vars labels =
          classify_image image ports (dedupEnvHits env_vars []) labels) ∧
    classify_image "postgres:15" [5432] ["POSTGRES_DB", "PGDATA"] [] =
      { archetype := "database"
        profile := some pgProfile
        confidence := "high"
        score := 100
        match_source := "image"
        evidence := ["image:postgres:15", "port:5432", "env:POSTGRES_DB"] } := by
  refine ⟨classify_image_score_le, ?_, by decide⟩
  intro image ports env_vars labels
  unfold classify_image envStep
  rw [envStepGo_dedup]

/-! ## C1 — `get_workload_insights` on an archetype-classified workload -/

/-- C1 (code bug): on the S4 workload — a single-replica Deployment whose
`postgres:15` container is classified into the PostgreSQL profile, with
empty telemetry — `_get_workload_insights` does not emit the profile's
alerts at all: the alert loop's first expression reads `a.nodata_state`,
an attribute `classifier.AlertSignal` does not define, so the tool raises
`AttributeError` (and `execute_tool` propagates it).  The PostgreSQL
profile it should have reported does exist and carries four alerts. -/
theorem c1_insights_attribute_error_on_s4 :
    execute_tool s4Platform "get_workload_insights" (.obj []) =
      .error "AttributeError: \x27AlertSignal\x27 object has no attribute \x27nodata_state\x27" ∧
    get_workload_insights s4Platform "" =
      .error "AttributeError: \x27AlertSignal\x27 object has no attribute \x27nodata_state\x27" ∧
    getProfile "postgresql" = some pgProfile ∧
    pgProfile.alerts.length = 4 ∧
    s4Container.archetype_display = "PostgreSQL" := by
  exact ⟨rfl, rfl, by decide, by decide, by decide⟩

end K8sObs

namespace K8sObs

/-! ## C2 — tool executors and exceptions -/

/-- C2 (counterexample): the analyze dispatcher `execute_tool` does let an
exception escape — `list_resources` is dispatched by keyword-splatting
`tool_input`, so an unexpected argument raises `TypeError` straight out of
the dispatcher (and `run_agent` calls it with no `try`/`except`).  By
contrast `get_platform_summary` is dispatched *without* the splat, so the
same input is silently ignored there and a summary string is returned. -/
theorem c2_execute_tool_exception_escapes :
    execute_tool {} "list_resources" (.obj [("x", .str "1")]) =
      .error "TypeError: _list_resources() got an unexpected keyword argument \x27x\x27" ∧
    execute_tool {} "get_platform_summary" (.obj [("x", .str "1")]) =
      .ok (get_platform_summary {}) :=
  ⟨rfl, rfl⟩

/-- C2 (amended): the *live* dispatcher `LiveToolExecutor.execute` never
lets an exception escape — a handler exception becomes the string result
`Tool \x27<name>\x27 error: <message>` and an unknown name yields an error
string; the analyze dispatcher `execute_tool` answers unknown names with
the string `Unknown tool: <name>`, but exceptions raised inside analyze
tool implementations propagate (see the counterexample). -/
theorem c2_executor_error_handling :
    (∀ (handlers : String → Option LiveHandler) (tool_name : String) (tool_input : Json)
        (h : LiveHandler) (e : String) (effs : List (List String)),
        handlers tool_name = some h →
        h tool_input = (.error e, effs) →
        liveExecute handlers tool_name tool_input =
          ("Tool \x27" ++ tool_name ++ "\x27 error: " ++ e, effs)) ∧
    (∀ (handlers : String → Option LiveHandler) (tool_name : String) (tool_input : Json)
        (h : LiveHandler) (s : String) (effs : List (List String)),
        handlers tool_name = some h →
        h tool_input = (.ok s, effs) →
        liveExecute handlers tool_name tool_input = (s, effs)) ∧
    (∀ (handlers : String → Option LiveHandler) (tool_name : String) (tool_input : Json),
        handlers tool_name = none →
        liveExecute handlers tool_name tool_input = ("Unknown live tool: " ++ tool_name, [])) ∧
    (∀ (platform : Platform) (tool_name : String) (tool_input : Json),
        tool_name ∉ analyzeToolNames →
        execute_tool platform tool_name tool_input = .ok ("Unknown tool: " ++ tool_name)) := by
  refine ⟨?_, ?_, ?_, ?_⟩
  · intro handlers tool_name tool_input h e effs hh hr
    simp [liveExecute, hh, hr]
  · intro handlers tool_name tool_input h s effs hh hr
    simp [liveExecute, hh, hr]
  · intro handlers tool_name tool_input hh
    simp [liveExecute, hh]
  · intro platform tool_name tool_input hmem
    simp only [analyzeToolNames, List.mem_cons, List.not_mem_nil, or_false, not_or] at hmem
    obtain ⟨h1, h2, h3, h4, h5, h6, h7, h8, h9⟩ := hmem
    simp [execute_tool, h1, h2, h3, h4, h5, h6, h7, h8, h9, pure, Except.pure]

/-- Closed instances of `c2_executor_error_handling` at concrete inputs. -/
theorem c2_executor_error_handling_witness :
    liveExecute (fun n => if n = "boom" then some (fun _ => (.error "fail", [])) else none)
        "boom" .null = ("Tool \x27boom\x27 error: fail", []) ∧
    liveExecute (fun _ => none) "mystery" .null = ("Unknown live tool: mystery", []) ∧
    execute_tool {} "mystery" .null = .ok ("Unknown tool: mystery") :=
  ⟨c2_executor_error_handling.1
      (fun n => if n = "boom" then some (fun _ => (.error "fail", [])) else none)
      "boom" .null (fun _ => (.error "fail", [])) "fail" [] (by simp) rfl,
   c2_executor_error_handling.2.2.1 _ "mystery" .null rfl,
   c2_executor_error_handling.2.2.2 {} "mystery" .null (by decide)⟩

end K8sObs

namespace K8sObs

/-! ## C6 — gated `apply_kubernetes_manifest` -/

/-- C6: the `ClusterClient` write opt-in defaults to deny; with writes
denied, `apply_manifest` raises `PermissionError` before invoking kubectl
(no invocation is performed), and the `apply_kubernetes_manifest` tool
returns the denial message as a normal string tool result through
`LiveToolExecutor.execute`; finally, every `ClusterClient` read operation
issues a read-only kubectl subcommand, so the apply tool is the only
cluster-mutating one. -/
theorem c6_apply_manifest_write_gate :
    (({} : ClusterClient).allow_writes = false) ∧
    (∀ (c : ClusterClient) (manifest ns : String)
        (runner : List String → String → CommandResult),
        c.allow_writes = false →
        c.apply_manifest manifest ns runner = (.error writesDeniedMsg, [])) ∧
    (∀ (c : ClusterClient) (kind name ns : String)
        (runner : List String → String → CommandResult),
        c.allow_writes = false →
        c.delete_resource kind name ns runner = (.error writesDeniedMsg, [])) ∧
    (∀ (c : ClusterClient) (runner : List String → String → CommandResult)
        (handlers : String → Option LiveHandler) (manifest : String)
        (rest : List (String × Json)),
        c.allow_writes = false →
        handlers "apply_kubernetes_manifest" = some (tool_apply_kubernetes_manifest c runner) →
        liveExecute handlers "apply_kubernetes_manifest"
          (.obj (("manifest_yaml", .str manifest) :: rest)) = (writesDeniedMsg, [])) ∧
    ((∀ kind ns sel, (ClusterClient.getResourcesArgs kind ns sel).head? = some "get") ∧
     (∀ kind name ns, (ClusterClient.describeResourceArgs kind name ns).head? =
        some "describe") ∧
     (∀ pod ns cont tail, (ClusterClient.getPodLogsArgs pod ns cont tail).head? =
        some "logs") ∧
     (∀ ns f, (ClusterClient.getEventsArgs ns f).head? = some "get") ∧
     (∀ ns, (ClusterClient.topPodsArgs ns).head? = some "top") ∧
     (∀ svc ns, (ClusterClient.getEndpointsArgs svc ns).head? = some "get") ∧
     ClusterClient.getCurrentContextArgs.head? = some "config" ∧
     ClusterClient.checkConnectivityArgs.head? = some "version" ∧
     ClusterClient.clusterInfoArgs.head? = some "cluster-info" ∧
     ClusterClient.getNamespacesArgs.head? = some "get") := by
  refine ⟨rfl, ?_, ?_, ?_, ?_⟩
  · intro c manifest ns runner hw
    simp [ClusterClient.apply_manifest, hw]
  · intro c kind name ns runner hw
    simp [ClusterClient.delete_resource, hw]
  · intro c runner handlers manifest rest hw hh
    simp [liveExecute, hh, tool_apply_kubernetes_manifest, alistGet?, List.find?,
      ClusterClient.apply_manifest, hw]
  · refine ⟨?_, ?_, ?_, ?_, ?_, ?_, rfl, rfl, rfl, rfl⟩ <;> intros <;> rfl

/-- Closed instance of `c6_apply_manifest_write_gate` at a default client
and a concrete handler table. -/
theorem c6_apply_manifest_write_gate_witness :
    (ClusterClient.apply_manifest {} "apiVersion: v1" "default" dummyRunner =
      (.error writesDeniedMsg, [])) ∧
    liveExecute
        (fun n => if n = "apply_kubernetes_manifest" then
          some (tool_apply_kubernetes_manifest {} dummyRunner) else none)
        "apply_kubernetes_manifest" (.obj [("manifest_yaml", .str "apiVersion: v1")]) =
      (writesDeniedMsg, []) :=
  ⟨c6_apply_manifest_write_gate.2.1 {} "apiVersion: v1" "default" dummyRunner rfl,
   c6_apply_manifest_write_gate.2.2.2.1 {} dummyRunner
     (fun n => if n = "apply_kubernetes_manifest" then
       some (tool_apply_kubernetes_manifest {} dummyRunner) else none)
     "apiVersion: v1" [] rfl (by simp)⟩

end K8sObs

namespace K8sObs

/-! ## C7 — manifest discovery size limit -/

/-- Every path accumulated by the discovery fold comes from the
accumulator or from a file of size at most the cap. -/
theorem discover_fold_mem (incMatch : String → Bool) (excMatch : Option (String → Bool)) :
    ∀ (files : List FileEntry) (acc : List String) (p : String),
      p ∈ files.foldl (fun acc f =>
        if f.size > MAX_FILE_SIZE_BYTES then acc
        else if incMatch f.path && excludeOk excMatch f.path then acc ++ [f.path]
        else acc) acc →
      p ∈ acc ∨ ∃ f ∈ files, f.path = p ∧ f.size ≤ MAX_FILE_SIZE_BYTES := by
  intro files
  induction files with
  | nil => intro acc p hp; exact Or.inl hp
  | cons f fs ih =>
    intro acc p hp
    simp only [List.foldl_cons] at hp
    rcases ih _ p hp with hacc | ⟨g, hg, hgp, hgs⟩
    · by_cases hsize : f.size > MAX_FILE_SIZE_BYTES
      · rw [if_pos hsize] at hacc
        exact Or.inl hacc
      · rw [if_neg hsize] at hacc
        by_cases hinc : (incMatch f.path && excludeOk excMatch f.path) = true
        · rw [if_pos hinc] at hacc
          rcases List.mem_append.mp hacc with h | h
          · exact Or.inl h
          · refine Or.inr ⟨f, List.mem_cons_self .., (List.mem_singleton.mp h).symm, ?_⟩
            omega
        · rw [if_neg hinc] at hacc
          exact Or.inl hacc
    · exact Or.inr ⟨g, List.mem_cons_of_mem _ hg, hgp, hgs⟩

/-- C7 (counterexample): a YAML file of exactly 1 MiB — 1,048,576 bytes —
is *not* skipped: `discover_manifest_files` returns it, because the source
skips only files with `st_size > MAX_FILE_SIZE_BYTES`. -/
theorem c7_exact_1mib_file_returned :
    discover_manifest_files defaultIncludeMatch none c7Files = ["a.yaml"] ∧
    c7Files = [{ path := "a.yaml", size := 1048576 }] ∧
    MAX_FILE_SIZE_BYTES = 1048576 := ⟨by decide, rfl, rfl⟩

/-- C7 (amended): discovery skips a file exactly when its size strictly
exceeds 1 MiB; every returned path belongs to a file of size ≤ 1,048,576
bytes (a file of exactly 1 MiB is retained). -/
theorem c7_discovery_size_cap :
    ∀ (incMatch : String → Bool) (excMatch : Option (String → Bool))
      (files : List FileEntry) (p : String),
      p ∈ discover_manifest_files incMatch excMatch files →
      ∃ f ∈ files, f.path = p ∧ f.size ≤ MAX_FILE_SIZE_BYTES := by
  intro incMatch excMatch files p hp
  unfold discover_manifest_files at hp
  rw [pySortStrings, List.mem_insertionSort] at hp
  rcases discover_fold_mem incMatch excMatch files [] p hp with h | h
  · cases h
  · exact h

/-- Closed instance of `c7_discovery_size_cap` on the 1 MiB fixture. -/
theorem c7_discovery_size_cap_witness :
    ∃ f ∈ c7Files, f.path = "a.yaml" ∧ f.size ≤ MAX_FILE_SIZE_BYTES :=
  c7_discovery_size_cap defaultIncludeMatch none c7Files "a.yaml" (by decide)

end K8sObs

namespace K8sObs

/-! ## C9 — capability tag grammar -/

/-- Step 1 of `_detect_telemetry` only adds `exporter:` tags. -/
theorem exporter_fold_mem (images : List String) :
    ∀ (pats : List (String × List String)) (acc : List String) (t : String),
      t ∈ pats.foldl (fun caps e =>
        if images.any (fun img => subSearch e.2 img) then
          caps ++ ["exporter:" ++ e.1]
        else caps) acc →
      t ∈ acc ∨ ∃ s, t = "exporter:" ++ s := by
  intro pats
  induction pats with
  | nil => intro acc t h; exact Or.inl h
  | cons e rest ih =>
    intro acc t h
    simp only [List.foldl_cons] at h
    rcases ih _ t h with hacc | hs
    · by_cases hc : images.any (fun img => subSearch e.2 img) = true
      · rw [if_pos hc] at hacc
        rcases List.mem_append.mp hacc with h2 | h2
        · exact Or.inl h2
        · exact Or.inr ⟨e.1, List.mem_singleton.mp h2⟩
      · rw [if_neg hc] at hacc
        exact Or.inl hacc
    · exact Or.inr hs

/-- Step 2 of `_detect_telemetry` only adds `builtin_metrics` and
`exporter:` tags. -/
theorem builtin_fold_mem :
    ∀ (cs : List ContainerSpec) (acc : List String) (t : String),
      t ∈ cs.foldl (fun caps c =>
        if c.archetype ≠ "custom-app" ∧ c.archetype_display ≠ "" then
          let profileKey :=
            replaceChar '/' '_' (replaceChar ' ' '_' (lowerStr c.archetype_display))
          if builtinMetricsProfiles.contains profileKey then
            let caps := caps ++ ["builtin_metrics"]
            match getProfile profileKey with
            | some profile =>
              if profile.exporter ≠ "" then caps ++ ["exporter:" ++ profile.exporter]
              else caps
            | none => caps
          else caps
        else caps) acc →
      t ∈ acc ∨ t = "builtin_metrics" ∨ ∃ s, t = "exporter:" ++ s := by
  intro cs
  induction cs with
  | nil => intro acc t h; exact Or.inl h
  | cons c rest ih =>
    intro acc t h
    simp only [List.foldl_cons] at h
    rcases ih _ t h with hacc | hs
    · clear h ih
      by_cases h1 : c.archetype ≠ "custom-app" ∧ c.archetype_display ≠ ""
      · rw [if_pos h1] at hacc
        set pk := replaceChar '/' '_' (replaceChar ' ' '_' (lowerStr c.archetype_display))
          with hpk
        by_cases h2 : builtinMetricsProfiles.contains pk = true
        · rw [if_pos h2] at hacc
          cases hprof : getProfile pk with
          | none =>
            rw [hprof] at hacc
            dsimp only at hacc
            rcases List.mem_append.mp hacc with h3 | h3
            · exact Or.inl h3
            · exact Or.inr (Or.inl (List.mem_singleton.mp h3))
          | some profile =>
            rw [hprof] at hacc
            dsimp only at hacc
            by_cases h4 : profile.exporter ≠ ""
            · rw [if_pos h4] at hacc
              rcases List.mem_append.mp hacc with h3 | h3
              · rcases List.mem_append.mp h3 with h5 | h5
                · exact Or.inl h5
                · exact Or.inr (Or.inl (List.mem_singleton.mp h5))
              · exact Or.inr (Or.inr ⟨profile.exporter, List.mem_singleton.mp h3⟩)
            · rw [if_neg h4] at hacc
              rcases List.mem_append.mp hacc with h3 | h3
              · exact Or.inl h3
              · exact Or.inr (Or.inl (List.mem_singleton.mp h3))
        · rw [if_neg h2] at hacc
          exact Or.inl hacc
      · rw [if_neg h1] at hacc
        exact Or.inl hacc
    · exact Or.inr hs

/-- The inner port loop of step 3 only adds `metrics_port:` tags rendered
from a declared `containerPort`. -/
theorem port_inner_fold_mem :
    ∀ (ports : List Json) (acc : List String) (t : String),
      t ∈ ports.foldl (fun caps port =>
        if lowerStr (port.getStrD "name" "") = "metrics" then
          caps ++ ["metrics_port:" ++ (port.getD "containerPort" (.num 0)).pyStr]
        else caps) acc →
      t ∈ acc ∨ ∃ port ∈ ports,
        t = "metrics_port:" ++ (port.getD "containerPort" (.num 0)).pyStr := by
  intro ports
  induction ports with
  | nil => intro acc t h; exact Or.inl h
  | cons port rest ih =>
    intro acc t h
    simp only [List.foldl_cons] at h
    rcases ih _ t h with hacc | ⟨q, hq, hqt⟩
    · by_cases hc : lowerStr (port.getStrD "name" "") = "metrics"
      · rw [if_pos hc] at hacc
        rcases List.mem_append.mp hacc with h2 | h2
        · exact Or.inl h2
        · exact Or.inr ⟨port, List.mem_cons_self .., List.mem_singleton.mp h2⟩
      · rw [if_neg hc] at hacc
        exact Or.inl hacc
    · exact Or.inr ⟨q, List.mem_cons_of_mem _ hq, hqt⟩

/-- Step 3 of `_detect_telemetry` only adds `metrics_port:` tags rendered
from container ports. -/
theorem port_fold_mem :
    ∀ (raws : List Json) (acc : List String) (t : String),
      t ∈ raws.foldl (fun caps raw =>
        (raw.getArrD "ports").foldl (fun caps port =>
          if lowerStr (port.getStrD "name" "") = "metrics" then
            caps ++ ["metrics_port:" ++ (port.getD "containerPort" (.num 0)).pyStr]
          else caps) caps) acc →
      t ∈ acc ∨ ∃ raw ∈ raws, ∃ port ∈ raw.getArrD "ports",
        t = "metrics_port:" ++ (port.getD "containerPort" (.num 0)).pyStr := by
  intro raws
  induction raws with
  | nil => intro acc t h; exact Or.inl h
  | cons raw rest ih =>
    intro acc t h
    simp only [List.foldl_cons] at h
    rcases ih _ t h with hacc | ⟨q, hq, hrest⟩
    · rcases port_inner_fold_mem _ _ t hacc with h2 | ⟨port, hport, hpt⟩
      · exact Or.inl h2
      · exact Or.inr ⟨raw, List.mem_cons_self .., port, hport, hpt⟩
    · exact Or.inr ⟨q, List.mem_cons_of_mem _ hq, hrest⟩

end K8sObs

namespace K8sObs

/-- A list is a prefix of itself followed by anything. -/
theorem isPrefixOf_self_append : ∀ (l t : List Char), l.isPrefixOf (l ++ t) = true := by
  intro l t
  induction l with
  | nil => simp [List.isPrefixOf]
  | cons a as ih => simp [List.isPrefixOf, ih]

/-- `strStartsWith` holds on the literal prefix. -/
theorem strStartsWith_append (p s : String) : strStartsWith p (p ++ s) = true := by
  simp only [strStartsWith, String.toList, String.data_append]
  exact isPrefixOf_self_append p.data s.data

/-- Rebuilding a string from its characters is the identity. -/
theorem strMk_toList (s : String) : String.mk s.toList = s := rfl

/-- Dropping the rendered prefix of a tag recovers the payload. -/
theorem tag_payload (p v : String) :
    String.mk ((p ++ v).toList.drop p.length) = v := by
  simp only [String.toList, String.data_append]
  rw [show p.length = p.data.length from rfl, List.drop_left]

/-- `capabilityGrammarOk` accepts any `exporter:` tag. -/
theorem grammar_exporter (s : String) :
    capabilityGrammarOk ("exporter:" ++ s) = true := by
  simp [capabilityGrammarOk, strStartsWith_append]

/-- `capabilityGrammarOk` accepts `metrics_port:` tags whose payload is a
nonempty digit string. -/
theorem grammar_metrics_port (v : String) (hne : v ≠ "") (hd : allDigits v = true) :
    capabilityGrammarOk ("metrics_port:" ++ v) = true := by
  unfold capabilityGrammarOk
  rw [strStartsWith_append, tag_payload "metrics_port:" v]
  simp [hne, hd]

/-- C9 (counterexample): with scraping enabled and
`prometheus.io/port: web`, the capability pass emits the tag
`metrics_port:web`, which does not match the `metrics_port:<digits>`
grammar. -/
theorem c9_nonnumeric_port_tag :
    "metrics_port:web" ∈ detect_telemetry [] [] c9PodAnnotations ∧
    capabilityGrammarOk "metrics_port:web" = false := by decide

/-- C9 (amended): every capability tag is `builtin_metrics`,
`scrape_annotations`, `exporter:<s>`, or `metrics_port:<v>` where `v` is
copied verbatim — either the `prometheus.io/port` annotation value or the
rendered `containerPort` of a port named `metrics`; consequently the
`metrics_port:<digits>` grammar holds exactly when those copied values are
nonempty digit strings. -/
theorem c9_capability_tag_shape :
    (∀ (parsed : List ContainerSpec) (raws : List Json)
        (anns : List (String × String)) (t : String),
        t ∈ detect_telemetry parsed raws anns →
        t = "builtin_metrics" ∨ t = "scrape_annotations" ∨
        (∃ s, t = "exporter:" ++ s) ∨
        (∃ v, t = "metrics_port:" ++ v ∧
          ((v = alistGetD anns "prometheus.io/port" "" ∧ v ≠ "") ∨
           ∃ raw ∈ raws, ∃ port ∈ raw.getArrD "ports",
             v = (port.getD "containerPort" (.num 0)).pyStr))) ∧
    (∀ (parsed : List ContainerSpec) (raws : List Json)
        (anns : List (String × String)),
        (alistGetD anns "prometheus.io/port" "" ≠ "" →
          allDigits (alistGetD anns "prometheus.io/port" "") = true) →
        (∀ raw ∈ raws, ∀ port ∈ raw.getArrD "ports",
          (port.getD "containerPort" (.num 0)).pyStr ≠ "" ∧
            allDigits ((port.getD "containerPort" (.num 0)).pyStr) = true) →
        ∀ t ∈ detect_telemetry parsed raws anns, capabilityGrammarOk t = true) := by
  have main : ∀ (parsed : List ContainerSpec) (raws : List Json)
      (anns : List (String × String)) (t : String),
      t ∈ detect_telemetry parsed raws anns →
      t = "builtin_metrics" ∨ t = "scrape_annotations" ∨
      (∃ s, t = "exporter:" ++ s) ∨
      (∃ v, t = "metrics_port:" ++ v ∧
        ((v = alistGetD anns "prometheus.io/port" "" ∧ v ≠ "") ∨
         ∃ raw ∈ raws, ∃ port ∈ raw.getArrD "ports",
           v = (port.getD "containerPort" (.num 0)).pyStr)) := by
    intro parsed raws anns t ht
    unfold detect_telemetry at ht
    rcases List.mem_append.mp ht with ht3 | htann
    · rcases List.mem_append.mp ht3 with ht2 | htport
      · rcases List.mem_append.mp ht2 with htexp | htblt
        · rcases exporter_fold_mem _ _ _ t htexp with h | ⟨s, hs⟩
          · cases h
          · exact Or.inr (Or.inr (Or.inl ⟨s, hs⟩))
        · rcases builtin_fold_mem _ _ t htblt with h | h | ⟨s, hs⟩
          · cases h
          · exact Or.inl h
          · exact Or.inr (Or.inr (Or.inl ⟨s, hs⟩))
      · rcases port_fold_mem _ _ t htport with h | ⟨raw, hraw, port, hport, hpt⟩
        · cases h
        · exact Or.inr (Or.inr (Or.inr ⟨_, hpt,
            Or.inr ⟨raw, hraw, port, hport, rfl⟩⟩))
    · by_cases hscrape : lowerStr (alistGetD anns "prometheus.io/scrape" "") = "true"
      · rw [if_pos hscrape] at htann
        by_cases hport : alistGetD anns "prometheus.io/port" "" ≠ ""
        · rw [if_pos hport] at htann
          simp only [List.mem_cons, List.not_mem_nil, or_false] at htann
          rcases htann with h | h
          · exact Or.inr (Or.inl h)
          · exact Or.inr (Or.inr (Or.inr ⟨_, h, Or.inl ⟨rfl, hport⟩⟩))
        · rw [if_neg hport] at htann
          simp only [List.mem_cons, List.not_mem_nil, or_false] at htann
          exact Or.inr (Or.inl htann)
      · rw [if_neg hscrape] at htann
        cases htann
  refine ⟨main, ?_⟩
  intro parsed raws anns hann hports t ht
  rcases main parsed raws anns t ht with h | h | ⟨s, hs⟩ | ⟨v, hv, hsrc⟩
  · rw [h]; decide
  · rw [h]; decide
  · rw [hs]; exact grammar_exporter s
  · rw [hv]
    rcases hsrc with ⟨hveq, hvne⟩ | ⟨raw, hraw, port, hport, hveq⟩
    · exact grammar_metrics_port v hvne (hveq ▸ hann (hveq ▸ hvne))
    · obtain ⟨hne, hd⟩ := hports raw hraw port hport
      exact grammar_metrics_port v (hveq ▸ hne) (hveq ▸ hd)

/-- Closed instance of `c9_capability_tag_shape` on a numeric-port pod. -/
theorem c9_capability_tag_shape_witness :
    ∀ t ∈ detect_telemetry []
      [Json.obj [("ports", Json.arr [Json.obj
        [("name", Json.str "metrics"), ("containerPort", Json.num 9187)]])]]
      [("prometheus.io/scrape", "true"), ("prometheus.io/port", "9090")],
      capabilityGrammarOk t = true :=
  c9_capability_tag_shape.2 []
    [Json.obj [("ports", Json.arr [Json.obj
      [("name", Json.str "metrics"), ("containerPort", Json.num 9187)]])]]
    [("prometheus.io/scrape", "true"), ("prometheus.io/port", "9090")]
    (fun _ => by decide) (by decide)

end K8sObs

namespace K8sObs

/-! ## C5 — Secret redaction -/

/-- Object atoms distribute over entry-list append. -/
theorem atomsObj_append (a b : List (String × Json)) :
    Json.atomsObj (a ++ b) = Json.atomsObj a ++ Json.atomsObj b := by
  induction a with
  | nil => rfl
  | cons e rest ih => simp [Json.atomsObj, ih]

/-- `find?` over an append scans the left list first. -/
theorem find?_append {α : Type} (p : α → Bool) (a b : List α) :
    (a ++ b).find? p = match a.find? p with
      | some x => some x
      | none => b.find? p := by
  induction a with
  | nil => rfl
  | cons x rest ih =>
    cases hx : p x with
    | false => simp [List.find?_cons, hx, ih]
    | true => simp [List.find?_cons, hx]

/-- The atoms of the entries that survive the secrecy filter are among
the non-secret atoms. -/
theorem atomsObj_filter_sub (entries : List (String × Json)) :
    Json.atomsObj (entries.filter fun e => e.1 ≠ "data" ∧ e.1 ≠ "stringData") ⊆
      nonSecretAtomsEntries entries := by
  induction entries with
  | nil => simp [Json.atomsObj]
  | cons e rest ih =>
    by_cases hp : (e.1 ≠ "data" ∧ e.1 ≠ "stringData")
    · rw [List.filter_cons_of_pos (by simpa using hp)]
      have hcond : ¬(e.1 = "data" ∨ e.1 = "stringData") := by
        rcases hp with ⟨h1, h2⟩
        rintro (h | h) <;> [exact h1 h; exact h2 h]
      simp only [nonSecretAtomsEntries, if_neg hcond, Json.atomsObj]
      intro x hx
      rcases List.mem_cons.mp hx with hx | hx
      · exact List.mem_append_left _ (hx ▸ List.mem_cons_self ..)
      · rcases List.mem_append.mp hx with hx | hx
        · exact List.mem_append_left _ (List.mem_cons_of_mem _ hx)
        · exact List.mem_append_right _ (ih hx)
    · rw [List.filter_cons_of_neg (by simpa using hp)]
      exact fun x hx => List.mem_append_right _ (ih hx)

/-- A present key is always among the non-secret atoms. -/
theorem key_mem_nonSecret (entries : List (String × Json)) (f : String) (v : Json)
    (hfind : alistGet? entries f = some v) : f ∈ nonSecretAtomsEntries entries := by
  induction entries with
  | nil => simp [alistGet?] at hfind
  | cons e rest ih =>
    by_cases he : e.1 = f
    · subst he
      simp only [nonSecretAtomsEntries]
      by_cases hc : (e.1 = "data" ∨ e.1 = "stringData")
      · rw [if_pos hc]
        exact List.mem_append_left _ (List.mem_cons_self ..)
      · rw [if_neg hc]
        exact List.mem_append_left _ (List.mem_cons_self ..)
    · have : alistGet? rest f = some v := by
        simpa [alistGet?, List.find?_cons, he] using hfind
      simp only [nonSecretAtomsEntries]
      exact List.mem_append_right _ (ih this)

/-- The keys of a secret field's object are among the non-secret atoms. -/
theorem secret_keys_mem_nonSecret (entries : List (String × Json)) (f : String)
    (kvs : List (String × Json)) (hf : f = "data" ∨ f = "stringData")
    (hfind : alistGet? entries f = some (.obj kvs)) :
    kvs.map Prod.fst ⊆ nonSecretAtomsEntries entries := by
  induction entries with
  | nil => simp [alistGet?] at hfind
  | cons e rest ih =>
    by_cases he : e.1 = f
    · have hval : e.2 = Json.obj kvs := by
        simpa [alistGet?, List.find?_cons, he] using hfind
      simp only [nonSecretAtomsEntries, he, hval, if_pos hf]
      intro x hx
      exact List.mem_append_left _ (List.mem_cons_of_mem _ hx)
    · have : alistGet? rest f = some (.obj kvs) := by
        simpa [alistGet?, List.find?_cons, he] using hfind
      simp only [nonSecretAtomsEntries]
      exact fun x hx => List.mem_append_right _ (ih this hx)

/-- Atoms of a fully redacted object: its keys plus the sentinel. -/
theorem redacted_atoms_sub (kvs : List (String × Json)) :
    Json.atoms (Json.obj (kvs.map fun kv => (kv.1, Json.str "REDACTED"))) ⊆
      kvs.map Prod.fst ++ ["REDACTED"] := by
  simp only [Json.atoms]
  induction kvs with
  | nil => simp [Json.atomsObj]
  | cons kv rest ih =>
    simp only [List.map_cons, Json.atomsObj, Json.atoms]
    intro x hx
    rcases List.mem_cons.mp hx with hx | hx
    · exact List.mem_append_left _ (hx ▸ List.mem_cons_self ..)
    · rcases List.mem_append.mp hx with hx | hx
      · rw [List.mem_singleton.mp hx]
        exact List.mem_append_right _ (List.mem_singleton.mpr rfl)
      · rcases List.mem_append.mp (ih hx) with h | h
        · exact List.mem_append_left _ (List.mem_cons_of_mem _ h)
        · exact List.mem_append_right _ h

/-- The re-appended redacted fields contribute only field names, secret
keys, and the sentinel. -/
theorem readd_atoms_sub (entries : List (String × Json)) :
    ∀ (fields : List String), (∀ f ∈ fields, f = "data" ∨ f = "stringData") →
      Json.atomsObj (fields.filterMap fun fieldName =>
        match alistGet? entries fieldName with
        | some (.obj kvs) =>
          some (fieldName, Json.obj (kvs.map fun kv => (kv.1, Json.str "REDACTED")))
        | _ => none) ⊆ nonSecretAtomsEntries entries ++ ["REDACTED"] := by
  intro fields
  induction fields with
  | nil => simp [Json.atomsObj]
  | cons f fs ih =>
    intro hf
    have hfs : ∀ g ∈ fs, g = "data" ∨ g = "stringData" :=
      fun g hg => hf g (List.mem_cons_of_mem _ hg)
    have hfhead : f = "data" ∨ f = "stringData" := hf f (List.mem_cons_self ..)
    cases hfind : alistGet? entries f with
    | none => simpa [List.filterMap_cons, hfind] using ih hfs
    | some v =>
      cases v with
      | null => simpa [List.filterMap_cons, hfind] using ih hfs
      | bool b => simpa [List.filterMap_cons, hfind] using ih hfs
      | num n => simpa [List.filterMap_cons, hfind] using ih hfs
      | flt h => simpa [List.filterMap_cons, hfind] using ih hfs
      | str s => simpa [List.filterMap_cons, hfind] using ih hfs
      | arr items => simpa [List.filterMap_cons, hfind] using ih hfs
      | obj kvs =>
        simp only [List.filterMap_cons, hfind, Json.atomsObj]
        intro x hx
        rcases List.mem_cons.mp hx with hx | hx
        · exact List.mem_append_left _ (hx ▸ key_mem_nonSecret entries f _ hfind)
        · rcases List.mem_append.mp hx with hx | hx
          · rcases List.mem_append.mp (redacted_atoms_sub kvs hx) with h | h
            · exact List.mem_append_left _
                (secret_keys_mem_nonSecret entries f kvs hfhead hfind h)
            · exact List.mem_append_right _ h
          · exact ih hfs hx

end K8sObs

namespace K8sObs

/-- Shape of one re-appended redacted field: when present it carries the
field name as key and the fully redacted object as value. -/
theorem readd_some_key (entries : List (String × Json)) (f : String) (x : String × Json) :
    (match alistGet? entries f with
      | some (.obj kvs) =>
        some (f, Json.obj (kvs.map fun kv => (kv.1, Json.str "REDACTED")))
      | _ => none) = some x →
    x.1 = f ∧ ∃ kvs, alistGet? entries f = some (.obj kvs) ∧
      x = (f, Json.obj (kvs.map fun kv => (kv.1, Json.str "REDACTED"))) := by
  cases h : alistGet? entries f with
  | none => simp
  | some v =>
    cases v with
    | obj kvs =>
      intro hx
      refine ⟨?_, kvs, rfl, ?_⟩
      · rw [← Option.some.inj hx]
      · exact (Option.some.inj hx).symm
    | null => simp
    | bool b => simp
    | num n => simp
    | flt fl => simp
    | str s => simp
    | arr items => simp

/-- C5 (counterexample): the Secret `c5SecretDoc` carries the
`stringData` value `"cret"`; after sanitization the serialized resource
still contains `"cret"` as a substring (inside the retained kind
`"Secret"`), so the claimed substring test fails. -/
theorem c5_substring_leak :
    "cret" ∈ secretValues c5SecretDoc ∧
    containsSub (Json.dumps (sanitize_raw c5SecretDoc)) "cret" = true := by decide

/-- C5 (amended): sanitization replaces every `data`/`stringData` value
with the sentinel `"REDACTED"` while preserving the key names, and every
string atom of the sanitized Secret is a non-secret atom of the original
document or the sentinel — an original secret value can therefore survive
only when it already occurs outside the secret fields (or as a substring
of retained text, as the counterexample shows). -/
theorem c5_redaction_sound :
    ∀ (doc : Json), doc.getStrD "kind" "" = "Secret" →
      ((sanitize_raw doc).atoms ⊆ nonSecretAtoms doc ++ ["REDACTED"]) ∧
      (∀ (fieldName : String) (kvs : List (String × Json)),
        (fieldName = "data" ∨ fieldName = "stringData") →
        doc.getD fieldName .null = .obj kvs →
        (sanitize_raw doc).getD fieldName .null =
          .obj (kvs.map fun kv => (kv.1, Json.str "REDACTED"))) := by
  intro doc hkind
  cases doc with
  | null => simp [Json.getStrD, Json.getD] at hkind
  | bool b => simp [Json.getStrD, Json.getD] at hkind
  | num n => simp [Json.getStrD, Json.getD] at hkind
  | flt h => simp [Json.getStrD, Json.getD] at hkind
  | str s => simp [Json.getStrD, Json.getD] at hkind
  | arr items => simp [Json.getStrD, Json.getD] at hkind
  | obj entries =>
    have hsan : sanitize_raw (.obj entries) =
        .obj ((entries.filter fun e => e.1 ≠ "data" ∧ e.1 ≠ "stringData") ++
          (["data", "stringData"].filterMap fun fieldName =>
            match alistGet? entries fieldName with
            | some (.obj kvs) =>
              some (fieldName, Json.obj (kvs.map fun kv => (kv.1, Json.str "REDACTED")))
            | _ => none)) := by
      unfold sanitize_raw
      rw [if_pos hkind]
    constructor
    · rw [hsan]
      simp only [Json.atoms, nonSecretAtoms, atomsObj_append]
      refine List.append_subset.mpr ⟨?_, ?_⟩
      · exact fun x hx =>
          List.mem_append_left _ (atomsObj_filter_sub entries hx)
      · exact readd_atoms_sub entries ["data", "stringData"]
          (by intro f hf; simpa using hf)
    · intro fieldName kvs hf hget
      have hfind : alistGet? entries fieldName = some (.obj kvs) := by
        simp only [Json.getD, alistGetD] at hget
        cases hf2 : entries.find? (fun p => p.1 = fieldName) with
        | none => rw [hf2] at hget; exact absurd hget (by simp)
        | some pr =>
          rw [hf2] at hget
          dsimp only at hget
          simp [alistGet?, hf2, hget]
      rw [hsan]
      simp only [Json.getD, alistGetD]
      rw [show (["data", "stringData"] : List String) = ["data"] ++ ["stringData"]
        from rfl, List.filterMap_append, find?_append]
      have hleft : (entries.filter fun e => e.1 ≠ "data" ∧ e.1 ≠ "stringData").find?
          (fun p => p.1 = fieldName) = none := by
        rw [List.find?_eq_none]
        intro x hx
        have hpred := List.of_mem_filter hx
        simp only [decide_eq_true_eq] at hpred
        rcases hf with rfl | rfl
        · simpa using hpred.1
        · simpa using hpred.2
      rw [hleft]
      rcases hf with rfl | rfl
      · -- fieldName = "data": the first re-added entry is the match
        rw [find?_append]
        have : (["data"].filterMap fun fieldName =>
            match alistGet? entries fieldName with
            | some (.obj kvs) =>
              some (fieldName, Json.obj (kvs.map fun kv => (kv.1, Json.str "REDACTED")))
            | _ => none) =
            [("data", Json.obj (kvs.map fun kv => (kv.1, Json.str "REDACTED")))] := by
          simp [List.filterMap_cons, hfind]
        rw [this]
        simp [List.find?_cons]
      · -- fieldName = "stringData": any "data" entry is skipped
        rw [find?_append]
        have hsd : (["stringData"].filterMap fun fieldName =>
            match alistGet? entries fieldName with
            | some (.obj kvs) =>
              some (fieldName, Json.obj (kvs.map fun kv => (kv.1, Json.str "REDACTED")))
            | _ => none) =
            [("stringData", Json.obj (kvs.map fun kv => (kv.1, Json.str "REDACTED")))] := by
          simp [List.filterMap_cons, hfind]
        have hd : (["data"].filterMap fun fieldName =>
            match alistGet? entries fieldName with
            | some (.obj kvs) =>
              some (fieldName, Json.obj (kvs.map fun kv => (kv.1, Json.str "REDACTED")))
            | _ => none).find? (fun p => p.1 = "stringData") = none := by
          rw [List.find?_eq_none]
          intro x hx
          rcases List.mem_filterMap.mp hx with ⟨a, ha, hfa⟩
          have ha' : a = "data" := by simpa using ha
          subst ha'
          have hk := (readd_some_key entries "data" x hfa).1
          simp [hk]
        rw [hd, hsd]
        simp [List.find?_cons]

/-- Closed instance of `c5_redaction_sound` at the counterexample
document. -/
theorem c5_redaction_sound_witness :
    ((sanitize_raw c5SecretDoc).atoms ⊆ nonSecretAtoms c5SecretDoc ++ ["REDACTED"]) ∧
    (sanitize_raw c5SecretDoc).getD "stringData" .null =
      .obj [("token", Json.str "REDACTED")] :=
  ⟨(c5_redaction_sound c5SecretDoc rfl).1,
   (c5_redaction_sound c5SecretDoc rfl).2 "stringData" [("token", Json.str "cret")]
     (Or.inr rfl) rfl⟩

end K8sObs

namespace K8sObs

/-- The per-turn retry loop makes between 1 and 3 `messages.create`
attempts. -/
theorem tryCall_attempts (f : Nat → LLMAttempt) :
    1 ≤ (tryCall f).1 ∧ (tryCall f).1 ≤ 3 := by
  unfold tryCall
  cases f 1 <;> cases f 2 <;> cases f 3 <;> simp

/-- Fuel-indexed bound on the turn loop: a successful run makes at most
`n` LLM calls and `3 n` attempts beyond the starting counters. -/
theorem runAgentLoop_bound (platform : Platform) (env : Nat → Nat → LLMAttempt) :
    ∀ (n turnIdx : Nat) (plan : Option ObservabilityPlan) (calls attempts : Nat)
      (res : RunResult),
      runAgentLoop platform env n turnIdx plan calls attempts = .ok res →
      res.llmCalls ≤ calls + n ∧ res.attempts ≤ attempts + 3 * n := by
  intro n
  induction n with
  | zero =>
    intro turnIdx plan calls attempts res h
    simp only [runAgentLoop] at h
    injection h with h
    subst h
    exact ⟨by show calls ≤ calls + 0; omega, by show attempts ≤ attempts + 3 * 0; omega⟩
  | succ m ih =>
    intro turnIdx plan calls attempts res h
    simp only [runAgentLoop] at h
    obtain ⟨h1, h3⟩ := tryCall_attempts (env turnIdx)
    rcases htc : tryCall (env turnIdx) with ⟨used, outcome⟩
    rw [htc] at h h1 h3
    dsimp only at h h1 h3
    cases outcome with
    | degraded p =>
      dsimp only at h
      injection h with h
      subst h
      exact ⟨by show calls ≤ calls + (m + 1); omega,
             by show attempts + used ≤ attempts + 3 * (m + 1); omega⟩
    | response r =>
      dsimp only at h
      cases hpb : processBlocks platform r.content plan with
      | error e =>
        rw [hpb] at h
        simp only [bind, Except.bind] at h
        exact Except.noConfusion h
      | ok pr =>
        rw [hpb] at h
        obtain ⟨toolResults, plan2⟩ := pr
        simp only [bind, Except.bind] at h
        cases plan2 with
        | some p =>
          dsimp only at h
          by_cases hsr : r.stop_reason = "end_turn"
          · rw [if_pos hsr] at h
            injection h with h
            subst h
            exact ⟨by show calls + 1 ≤ calls + (m + 1); omega,
                   by show attempts + used ≤ attempts + 3 * (m + 1); omega⟩
          · rw [if_neg hsr] at h
            obtain ⟨ha, hb⟩ :=
              ih (turnIdx + 1) (some p) (calls + 1) (attempts + used) res h
            omega
        | none =>
          dsimp only at h
          by_cases hsr : r.stop_reason = "end_turn" ∧ toolResults.isEmpty
          · rw [if_pos hsr] at h
            injection h with h
            subst h
            exact ⟨by show calls + 1 ≤ calls + (m + 1); omega,
                   by show attempts + used ≤ attempts + 3 * (m + 1); omega⟩
          · rw [if_neg hsr] at h
            obtain ⟨ha, hb⟩ :=
              ih (turnIdx + 1) none (calls + 1) (attempts + used) res h
            omega

/-- C4: for every sequence of LLM responses, a completed `run_agent`
performed at most `max_agent_turns` LLM calls and at most three attempts
per call; and on the S6 transcript (two ordinary tool_use turns, then a
`generate_observability_plan` turn with `end_turn`) it returns the parsed
plan after exactly 3 LLM calls and 3 attempts — a fourth call does not
happen even with 30 turns available. -/
theorem c4_agent_termination :
    (∀ (platform : Platform) (max_agent_turns : Nat) (env : Nat → Nat → LLMAttempt)
       (res : RunResult),
        run_agent platform max_agent_turns env = .ok res →
        res.llmCalls ≤ max_agent_turns ∧ res.attempts ≤ 3 * max_agent_turns) ∧
    run_agent s6Platform 30 s6Env =
      .ok { plan := s6Plan, llmCalls := 3, attempts := 3 } := by
  constructor
  · intro platform mt env res h
    have hb := runAgentLoop_bound platform env mt 1 none 0 0 res h
    simpa using hb
  · rfl

/-- Closed instance of `c4_agent_termination`: the S6 run obeys the call
and attempt bounds. -/
theorem c4_agent_termination_witness :
    (3 : Nat) ≤ 30 ∧ (3 : Nat) ≤ 3 * 30 :=
  c4_agent_termination.1 s6Platform 30 s6Env
    { plan := s6Plan, llmCalls := 3, attempts := 3 } c4_agent_termination.2

end K8sObs

namespace K8sObs

/-- `ValidationCheck(**c.model_dump())` reproduces `c`. -/
theorem parseValidationCheck_roundtrip (c : ValidationCheck) :
    parseValidationCheck (ValidationCheck.modelDump c) = .ok c := rfl

/-- `DashboardImportResult(**d.model_dump())` reproduces `d`. -/
theorem parseDashboardImportResult_roundtrip (d : DashboardImportResult) :
    parseDashboardImportResult (DashboardImportResult.modelDump d) = .ok d := rfl

/-- `RemediationStep(**s.model_dump())` reproduces `s`. -/
theorem parseRemediationStep_roundtrip (s : RemediationStep) :
    parseRemediationStep (RemediationStep.modelDump s) = .ok s := rfl

/-- `mapM` over a dumped list reproduces the list when each element
round-trips. -/
theorem mapM_roundtrip {α β : Type} (f : α → β) (g : β → Except String α)
    (hfg : ∀ a, g (f a) = .ok a) :
    ∀ l : List α, (l.map f).mapM g = .ok l := by
  intro l
  induction l with
  | nil => rfl
  | cons x xs ih =>
    simp only [List.map_cons, List.mapM_cons, hfg, ih, bind, Except.bind, pure, Except.pure]

/-- Rebuilding a report from a row saved by `save_run` gives back the
report field by field. -/
theorem dict_to_report_roundtrip (idv : Nat) (ctx : String) (run_at : Nat)
    (report : ValidationReport) (plan_hash : String) :
    dict_to_report
      { id := idv, cluster_context := ctx, run_at := run_at,
        cluster_summary := report.cluster_summary,
        checks_json := .arr (report.checks.map ValidationCheck.modelDump),
        dashboards_json :=
          .arr (report.dashboards_imported.map DashboardImportResult.modelDump),
        recommendations_json := .arr (report.recommendations.map Json.str),
        remediation_json := .arr (report.remediation_steps.map RemediationStep.modelDump),
        dashboards_to_import_json :=
          .arr (report.dashboards_to_import.map DashboardImportResult.modelDump),
        plan_hash := plan_hash } = .ok report := by
  have h1 := mapM_roundtrip ValidationCheck.modelDump parseValidationCheck
    parseValidationCheck_roundtrip report.checks
  have h2 := mapM_roundtrip DashboardImportResult.modelDump parseDashboardImportResult
    parseDashboardImportResult_roundtrip report.dashboards_imported
  have h3 := mapM_roundtrip RemediationStep.modelDump parseRemediationStep
    parseRemediationStep_roundtrip report.remediation_steps
  have h4 := mapM_roundtrip DashboardImportResult.modelDump parseDashboardImportResult
    parseDashboardImportResult_roundtrip report.dashboards_to_import
  have h5 := mapM_roundtrip Json.str
    (fun item => match item with
      | .str s => .ok s
      | _ => (.error "ValidationError: recommendations items must be strings" :
          Except String String))
    (fun _ => rfl) report.recommendations
  simp only [dict_to_report, loadsArr, h1, h2, h3, h4, h5, bind, Except.bind, pure,
    Except.pure]

/-- In a sorted-descending list, a row strictly fresher than every other
row is the head. -/
theorem sortRunAtDesc_head_of_max (l : List HistoryRow) (r : HistoryRow)
    (hmax : ∀ x ∈ l, x.run_at < r.run_at) :
    (sortRunAtDesc (l ++ [r])).head? = some r := by
  have hperm : (sortRunAtDesc (l ++ [r])).Perm (l ++ [r]) :=
    List.perm_insertionSort _ _
  have hsorted : (sortRunAtDesc (l ++ [r])).Sorted runAtGe :=
    List.sorted_insertionSort _ _
  have hr : r ∈ sortRunAtDesc (l ++ [r]) := hperm.mem_iff.mpr (by simp)
  cases hs : sortRunAtDesc (l ++ [r]) with
  | nil => rw [hs] at hr; exact absurd hr (List.not_mem_nil r)
  | cons a as =>
    rw [hs] at hr hsorted hperm
    rcases List.mem_cons.mp hr with h | h
    · simp [h]
    · have hge : runAtGe a r := (List.sorted_cons.mp hsorted).1 r h
      have ha : a ∈ l ++ [r] := hperm.mem_iff.mp (List.mem_cons_self a as)
      rcases List.mem_append.mp ha with ha2 | ha2
      · exfalso
        have hlt := hmax a ha2
        simp only [runAtGe, ge_iff_le] at hge
        omega
      · have har : a = r := by simpa using ha2
        simp [har]

/-- C8: saving a report and reading the latest report back for the same
context reproduces the report field by field, whenever the new run is
strictly fresher than every run already stored for that context (as a
wall-clock timestamp always is). -/
theorem c8_history_roundtrip :
    ∀ (h : ValidationHistory) (ctx : String) (report : ValidationReport)
      (now : Nat) (plan_hash : String),
      (∀ r ∈ h.rows, r.cluster_context = ctx → r.run_at < now) →
      (h.save_run ctx report now plan_hash).2.last_report ctx = .ok (some report) := by
  intro h ctx report now plan_hash hfresh
  unfold ValidationHistory.save_run ValidationHistory.last_report
  unfold ValidationHistory.last_run
  dsimp only
  rw [List.filter_append]
  have hone : List.filter (fun r => decide (r.cluster_context = ctx))
      [({ id := h.nextId, cluster_context := ctx, run_at := now,
          cluster_summary := report.cluster_summary,
          checks_json := .arr (report.checks.map ValidationCheck.modelDump),
          dashboards_json :=
            .arr (report.dashboards_imported.map DashboardImportResult.modelDump),
          recommendations_json := .arr (report.recommendations.map Json.str),
          remediation_json :=
            .arr (report.remediation_steps.map RemediationStep.modelDump),
          dashboards_to_import_json :=
            .arr (report.dashboards_to_import.map DashboardImportResult.modelDump),
          plan_hash := plan_hash } : HistoryRow)] =
      [{ id := h.nextId, cluster_context := ctx, run_at := now,
         cluster_summary := report.cluster_summary,
         checks_json := .arr (report.checks.map ValidationCheck.modelDump),
         dashboards_json :=
           .arr (report.dashboards_imported.map DashboardImportResult.modelDump),
         recommendations_json := .arr (report.recommendations.map Json.str),
         remediation_json :=
           .arr (report.remediation_steps.map RemediationStep.modelDump),
         dashboards_to_import_json :=
           .arr (report.dashboards_to_import.map DashboardImportResult.modelDump),
         plan_hash := plan_hash }] := by
    simp [List.filter]
  rw [hone]
  rw [sortRunAtDesc_head_of_max]
  · dsimp only
    rw [dict_to_report_roundtrip]
    rfl
  · intro x hx
    have hx2 := List.mem_filter.mp hx
    exact hfresh x hx2.1 (by simpa using hx2.2)

/-- Closed instance of `c8_history_roundtrip` on a concrete history whose
stored runs are all older than the new timestamp. -/
theorem c8_history_roundtrip_witness :
    (sampleHistory.save_run "ctx" sampleReport 10 "").2.last_report "ctx" =
      .ok (some sampleReport) :=
  c8_history_roundtrip sampleHistory "ctx" sampleReport 10 "" (by decide)

end K8sObs

namespace K8sObs

/-- A row among the `keep` freshest (fewer than `keep` rows are strictly
fresher, run\x2dat timestamps pairwise distinct) survives the
`ORDER BY run_at DESC ... LIMIT keep` selection. -/
theorem take_mem_of_rank (L : List HistoryRow) (r : HistoryRow) (keep : Nat)
    (hrL : r ∈ L)
    (hdist : L.Pairwise fun a b => a.run_at ≠ b.run_at)
    (hcount : L.countP (fun x => decide (r.run_at < x.run_at)) < keep) :
    r ∈ (sortRunAtDesc L).take keep := by
  have hperm : (sortRunAtDesc L).Perm L := List.perm_insertionSort _ _
  have hsorted : List.Sorted runAtGe (sortRunAtDesc L) := List.sorted_insertionSort _ _
  have hsymm : Symmetric (fun a b : HistoryRow => a.run_at ≠ b.run_at) := by
    intro a b hab hba
    exact hab hba.symm
  have hdistS : (sortRunAtDesc L).Pairwise (fun a b => a.run_at ≠ b.run_at) :=
    (hperm.pairwise_iff @hsymm).mpr hdist
  have hrS : r ∈ sortRunAtDesc L := hperm.mem_iff.mpr hrL
  by_contra hnot
  have hsplit := List.take_append_drop keep (sortRunAtDesc L)
  have hrdrop : r ∈ (sortRunAtDesc L).drop keep := by
    rcases List.mem_append.mp (by rw [hsplit]; exact hrS) with h1 | h1
    · exact absurd h1 hnot
    · exact h1
  have hklen : ((sortRunAtDesc L).take keep).length = keep := by
    have hlt : keep < (sortRunAtDesc L).length := by
      by_contra hge
      push_neg at hge
      rw [List.drop_eq_nil_of_le hge] at hrdrop
      exact absurd hrdrop (List.not_mem_nil r)
    simp [List.length_take, Nat.min_eq_left (Nat.le_of_lt hlt)]
  have hsorted2 : List.Pairwise runAtGe
      ((sortRunAtDesc L).take keep ++ (sortRunAtDesc L).drop keep) := by
    rw [hsplit]; exact hsorted
  have hdist2 : List.Pairwise (fun a b => a.run_at ≠ b.run_at)
      ((sortRunAtDesc L).take keep ++ (sortRunAtDesc L).drop keep) := by
    rw [hsplit]; exact hdistS
  have h3 := (List.pairwise_append.mp hsorted2).2.2
  have h3d := (List.pairwise_append.mp hdist2).2.2
  have hall : ∀ x ∈ (sortRunAtDesc L).take keep,
      (fun x => decide (r.run_at < x.run_at)) x = true := by
    intro x hx
    have hge := h3 x hx r hrdrop
    have hne := h3d x hx r hrdrop
    simp only [runAtGe, ge_iff_le] at hge
    simp only [decide_eq_true_eq]
    omega
  have hcnt_take : ((sortRunAtDesc L).take keep).countP
      (fun x => decide (r.run_at < x.run_at)) = keep := by
    rw [List.countP_eq_length.mpr hall, hklen]
  have hcntS : keep ≤ (sortRunAtDesc L).countP (fun x => decide (r.run_at < x.run_at)) := by
    calc keep = ((sortRunAtDesc L).take keep).countP
          (fun x => decide (r.run_at < x.run_at)) := hcnt_take.symm
      _ ≤ ((sortRunAtDesc L).take keep).countP (fun x => decide (r.run_at < x.run_at)) +
          ((sortRunAtDesc L).drop keep).countP (fun x => decide (r.run_at < x.run_at)) :=
        Nat.le_add_right _ _
      _ = (sortRunAtDesc L).countP (fun x => decide (r.run_at < x.run_at)) := by
        rw [← List.countP_append, hsplit]
  have hpc := hperm.countP_eq (fun x => decide (r.run_at < x.run_at))
  omega

/-- C10: `prune` deletes only runs of the given context — every row of
another context is retained verbatim (and the id counter is untouched) —
and a row of the context that is among the `keep` freshest (fewer than
`keep` of the context\x27s rows are strictly fresher; timestamps pairwise
distinct) is retained. -/
theorem c10_prune_frame_and_keep :
    ∀ (h : ValidationHistory) (ctx : String) (keep : Nat),
      ((h.prune ctx keep).2.rows.filter
          (fun r => !decide (r.cluster_context = ctx)) =
        h.rows.filter (fun r => !decide (r.cluster_context = ctx))) ∧
      (h.prune ctx keep).2.nextId = h.nextId ∧
      (∀ r ∈ h.rows, r.cluster_context = ctx →
        (h.rows.filter fun x => decide (x.cluster_context = ctx)).Pairwise
          (fun a b => a.run_at ≠ b.run_at) →
        (h.rows.filter fun x => decide (x.cluster_context = ctx)).countP
          (fun x => decide (r.run_at < x.run_at)) < keep →
        r ∈ (h.prune ctx keep).2.rows) := by
  intro h ctx keep
  refine ⟨?_, rfl, ?_⟩
  · show (h.rows.filter _).filter _ = h.rows.filter _
    rw [List.filter_filter]
    refine List.filter_congr ?_
    intro r _
    by_cases hc : r.cluster_context = ctx
    · simp [hc]
    · simp [hc]
  · intro r hr hctx hdist hcount
    have hrtake := take_mem_of_rank
      (h.rows.filter fun x => decide (x.cluster_context = ctx)) r keep
      (List.mem_filter.mpr ⟨hr, by simp [hctx]⟩) hdist hcount
    have hid : r.id ∈ ((sortRunAtDesc
        (h.rows.filter fun x => decide (x.cluster_context = ctx))).take keep).map
          (fun y => y.id) :=
      List.mem_map_of_mem _ hrtake
    have hcont : (((sortRunAtDesc
        (h.rows.filter fun x => decide (x.cluster_context = ctx))).take keep).map
          (fun y => y.id)).contains r.id = true :=
      List.elem_eq_true_of_mem hid
    refine List.mem_filter.mpr ⟨hr, ?_⟩
    dsimp only
    rw [hcont]
    simp

/-- Closed instance of `c10_prune_frame_and_keep`: pruning `sampleHistory`
to its two freshest `ctx` runs keeps the freshest row and leaves the
`other` context untouched. -/
theorem c10_prune_frame_and_keep_witness :
    c10Row ∈ (sampleHistory.prune "ctx" 2).2.rows ∧
    ((sampleHistory.prune "ctx" 2).2.rows.filter
        (fun r => !decide (r.cluster_context = "ctx")) =
      sampleHistory.rows.filter (fun r => !decide (r.cluster_context = "ctx"))) :=
  ⟨(c10_prune_frame_and_keep sampleHistory "ctx" 2).2.2 c10Row
      (List.mem_append_right _ (List.mem_singleton_self c10Row)) rfl
      (by decide) (by decide),
   (c10_prune_frame_and_keep sampleHistory "ctx" 2).1⟩

end K8sObs
